import Mathlib

/-!
# Verification of the VMAD (scripting-bridge) codec

Shallow embedding of the Virtual Machine Adapter subrecord codec from
`Mopy/bash/game/skyrim/records.py` (class `MelVmad` and its helpers), and
proofs of the frozen claims about it.

Modelling conventions:
* Bytes are `Nat` values (well-formedness predicates bound them below 256);
  a byte string is a `List Nat`.
* The seekable input stream (`ins`) is a `VmadStream`: the underlying data
  plus a cursor position.  `ins.unpack`/`ins.read`/`ins.seek` become
  operations in an error/state monad `VmadM`.
* Python `struct` codes: all multi-byte values are little-endian; signed
  values are modelled as `Int` obtained via two's complement reinterpretation
  of the unsigned little-endian value.  32-bit floats are kept as their raw
  32-bit little-endian bit pattern (the codec never computes with them, it
  only moves them between the wire and memory, so the bit pattern is a
  faithful value representation).
* VMAD strings (`str16`) are decoded with a fixed single-byte code page
  (cp1252), which is a value-preserving reinterpretation of the raw bytes;
  we keep the raw byte list as the in-memory string value.
* Python mutation of the in-memory record during `dump_data` is made
  explicit: every `dump_data` returns the produced bytes *and* the updated
  record.
* Exceptions (`ModError`, `AttributeError`, struct errors) become the
  `VmadError` type; a failed decode returns `.error e` and hence retains no
  partial result.
-/

/-- Little-endian value of a byte list (first byte is least significant). -/
def leVal (bs : List Nat) : Nat :=
  bs.foldr (fun b acc => b + 256 * acc) 0

/-- Dump a `u8` (`struct` code B / b after two's complement). -/
def w8 (v : Nat) : List Nat := [v % 256]

/-- Dump a little-endian `u16` (`struct` code H). -/
def w16 (v : Nat) : List Nat := [v % 256, v / 256 % 256]

/-- Dump a little-endian `u32` (`struct` code I). -/
def w32 (v : Nat) : List Nat :=
  [v % 256, v / 256 % 256, v / 65536 % 256, v / 16777216 % 256]

/-- Dump a signed 8-bit value (`struct` code b): two's complement. -/
def wi8 (v : Int) : List Nat := w8 (v % 256).toNat

/-- Dump a signed little-endian 16-bit value (`struct` code h). -/
def wi16 (v : Int) : List Nat := w16 (v % 65536).toNat

/-- Dump a signed little-endian 32-bit value (`struct` code i). -/
def wi32 (v : Int) : List Nat := w32 (v % 4294967296).toNat

/-- Two's complement reinterpretation of an unsigned 8-bit value. -/
def toI8 (v : Nat) : Int := if v < 128 then (v : Int) else (v : Int) - 256

/-- Two's complement reinterpretation of an unsigned 16-bit value. -/
def toI16 (v : Nat) : Int := if v < 32768 then (v : Int) else (v : Int) - 65536

/-- Two's complement reinterpretation of an unsigned 32-bit value. -/
def toI32 (v : Nat) : Int :=
  if v < 2147483648 then (v : Int) else (v : Int) - 4294967296

/-- The error outcomes a VMAD decode/encode can produce.  `modError`
carries the message head the source formats into the raised `ModError`. -/
inductive VmadError where
  /-- Fewer bytes remain in the stream than an unpack needs. -/
  | truncatedData
  /-- A relative seek moved the cursor before the start of the stream. -/
  | badSeek
  /-- Raised as a `ModError` with the offending value interpolated. -/
  | unrecognizedVersion (v : Int)
  /-- Raised as a `ModError` with the offending value interpolated. -/
  | unrecognizedObjectFormat (f : Int)
  /-- Raised as a `ModError` with the offending value interpolated. -/
  | unrecognizedPropertyType (t : Nat)
  /-- A Python AttributeError: the named attribute was read before being
  set (it is not among the slots the component stores into). -/
  | attributeError (a : String)
  deriving Repr, DecidableEq

/-- A seekable byte cursor: the data of the (sub)stream and the position. -/
structure VmadStream where
  data : List Nat
  pos : Nat
  deriving Repr, DecidableEq

instance {ε α : Type} [DecidableEq ε] [DecidableEq α] :
    DecidableEq (Except ε α) := fun x y =>
  match x, y with
  | .error a, .error b =>
    match decEq a b with
    | isTrue h => isTrue (h ▸ rfl)
    | isFalse h => isFalse fun hc => h (Except.error.inj hc)
  | .ok a, .ok b =>
    match decEq a b with
    | isTrue h => isTrue (h ▸ rfl)
    | isFalse h => isFalse fun hc => h (Except.ok.inj hc)
  | .error _, .ok _ => isFalse fun hc => Except.noConfusion hc
  | .ok _, .error _ => isFalse fun hc => Except.noConfusion hc

/-- The decode monad: state (the cursor) plus hard errors. -/
def VmadM (α : Type) : Type := VmadStream → Except VmadError (α × VmadStream)

instance : Monad VmadM where
  pure a := fun s => .ok (a, s)
  bind m f := fun s =>
    match m s with
    | .error e => .error e
    | .ok (a, s2) => f a s2

/-- Raise a hard decode error. -/
def vmadThrow (e : VmadError) : VmadM α := fun _ => .error e

/-- `ins.read n` / the byte-consuming part of `ins.unpack`: take `n` bytes
at the cursor, failing when fewer than `n` remain. -/
def readBytes (n : Nat) : VmadM (List Nat) := fun s =>
  if s.pos + n ≤ s.data.length then
    .ok ((s.data.drop s.pos).take n, ⟨s.data, s.pos + n⟩)
  else
    .error .truncatedData

/-- `ins.seek (delta, 1)`: move the cursor relative to its position.
Seeking before the start of the stream fails; seeking past the end is
allowed (a later read will fail instead). -/
def seekRel (delta : Int) : VmadM Unit := fun s =>
  if 0 ≤ (s.pos : Int) + delta then
    .ok ((), ⟨s.data, ((s.pos : Int) + delta).toNat⟩)
  else
    .error .badSeek

/-- Unpack `struct` code B. -/
def readU8 : VmadM Nat := do
  let bs ← readBytes 1
  pure (leVal bs)

/-- Unpack `struct` code b. -/
def readI8 : VmadM Int := do
  let bs ← readBytes 1
  pure (toI8 (leVal bs))

/-- Unpack `struct` code H. -/
def readU16 : VmadM Nat := do
  let bs ← readBytes 2
  pure (leVal bs)

/-- Unpack `struct` code h. -/
def readI16 : VmadM Int := do
  let bs ← readBytes 2
  pure (toI16 (leVal bs))

/-- Unpack `struct` code I. -/
def readU32 : VmadM Nat := do
  let bs ← readBytes 4
  pure (leVal bs)

/-- Unpack `struct` code i. -/
def readI32 : VmadM Int := do
  let bs ← readBytes 4
  pure (toI32 (leVal bs))

/-- `_read_vmad_str16`: reads a 16-bit length integer, then reads a string
of that length (kept as its raw cp1252 bytes). -/
def read_vmad_str16 : VmadM (List Nat) := do
  let n ← readU16
  readBytes n

/-- `_dump_vmad_str16`: data for the string's length (16-bit) plus its
encoded value. -/
def dump_vmad_str16 (str_val : List Nat) : List Nat :=
  w16 str_val.length ++ str_val

/-! ## Data model

One structure per VMAD component class.  The source creates record
instances dynamically with `__slots__` taken from each component's
`processors` plus its child attributes; here each component gets an
explicit structure with exactly those slots. -/

/-- `ObjectRef`: an object ref is a FormID and an AliasID. -/
structure ObjectRef where
  aid : Int
  fid : Nat
  deriving Repr, DecidableEq

namespace MelVmad

/-- The dynamically-typed payload of a script property (`prop_data`).
Strings are kept as their raw cp1252 bytes, floats as their raw 32-bit
little-endian bit pattern. -/
inductive PropData where
  | null
  | obj (r : ObjectRef)
  | str (s : List Nat)
  | i32 (v : Int)
  | flt (bits : Nat)
  | boolean (b : Bool)
  | objArray (rs : List ObjectRef)
  | strArray (ss : List (List Nat))
  | i32Array (vs : List Int)
  | fltArray (bits : List Nat)
  | boolArray (bs : List Bool)
  deriving Repr, DecidableEq

/-- A single script property (`MelVmad.Property` record instance). -/
structure Property where
  prop_name : List Nat
  prop_type : Nat
  prop_flags : Nat
  prop_data : PropData
  deriving Repr, DecidableEq

/-- A single script (`MelVmad.Script` record instance). -/
structure Script where
  script_name : List Nat
  script_flags : Nat
  property_count : Nat
  properties : List Property
  deriving Repr, DecidableEq

/-- A single alias (`MelVmad.Alias` record instance). -/
structure Alias where
  alias_ref_obj : ObjectRef
  alias_vmad_version : Int
  alias_obj_format : Int
  script_count : Nat
  scripts : List Script
  deriving Repr, DecidableEq

/-- SCEN OnBegin/OnEnd, PACK and INFO fragments (`FragmentBasic`). -/
structure FragmentBasic where
  unknown1 : Int
  script_name : List Nat
  fragment_name : List Nat
  deriving Repr, DecidableEq

/-- PERK fragments (`FragmentPERK`). -/
structure FragmentPERK where
  fragment_index : Nat
  unknown1 : Int
  unknown2 : Int
  script_name : List Nat
  fragment_name : List Nat
  deriving Repr, DecidableEq

/-- QUST fragments (`FragmentQUST`). -/
structure FragmentQUST where
  quest_stage : Nat
  unknown1 : Int
  quest_stage_index : Nat
  unknown2 : Int
  script_name : List Nat
  fragment_name : List Nat
  deriving Repr, DecidableEq

/-- SCEN phase fragments (`FragmentSCENPhase`).  The raw flags byte is
stored under `fragment_flags` (that is the attribute the processors
write). -/
structure FragmentSCENPhase where
  fragment_flags : Nat
  phase_index : Nat
  unknown1 : Int
  unknown2 : Int
  unknown3 : Int
  script_name : List Nat
  fragment_name : List Nat
  deriving Repr, DecidableEq

/-- Special VMAD data for INFO records (`VmadHandlerINFO` instances):
fixed container with children `begin_frag` (flag `on_begin`, bit 0) and
`end_frag` (flag `on_end`, bit 1).  An absent child is `none`. -/
structure VmadHandlerINFOData where
  extra_bind_data_version : Int
  fragment_flags : Nat
  file_name : List Nat
  begin_frag : Option FragmentBasic
  end_frag : Option FragmentBasic
  deriving Repr, DecidableEq

/-- Special VMAD data for PACK records (`VmadHandlerPACK` instances):
children `begin_frag` (bit 0), `end_frag` (bit 1), `change_frag`
(flag `on_change`, bit 2). -/
structure VmadHandlerPACKData where
  extra_bind_data_version : Int
  fragment_flags : Nat
  file_name : List Nat
  begin_frag : Option FragmentBasic
  end_frag : Option FragmentBasic
  change_frag : Option FragmentBasic
  deriving Repr, DecidableEq

/-- Special VMAD data for PERK records (`VmadHandlerPERK` instances). -/
structure VmadHandlerPERKData where
  extra_bind_data_version : Int
  file_name : List Nat
  fragment_count : Nat
  fragments : List FragmentPERK
  deriving Repr, DecidableEq

/-- Special VMAD data for QUST records (`VmadHandlerQUST` instances). -/
structure VmadHandlerQUSTData where
  extra_bind_data_version : Int
  fragment_count : Nat
  file_name : List Nat
  fragments : List FragmentQUST
  aliases : List Alias
  deriving Repr, DecidableEq

/-- Special VMAD data for SCEN records (`VmadHandlerSCEN` instances). -/
structure VmadHandlerSCENData where
  extra_bind_data_version : Int
  fragment_flags : Nat
  file_name : List Nat
  begin_frag : Option FragmentBasic
  end_frag : Option FragmentBasic
  phase_fragments : List FragmentSCENPhase
  deriving Repr, DecidableEq

/-- The special-data block, tagged by which of the five handlers built it. -/
inductive SpecialData where
  | info (d : VmadHandlerINFOData)
  | pack (d : VmadHandlerPACKData)
  | perk (d : VmadHandlerPERKData)
  | qust (d : VmadHandlerQUSTData)
  | scen (d : VmadHandlerSCENData)
  deriving Repr, DecidableEq

/-- The decoded VMAD subrecord (`_MelVmadImpl` instances): slots
`scripts` and `special_data`. -/
structure VmadData where
  scripts : List Script
  special_data : Option SpecialData
  deriving Repr, DecidableEq

end MelVmad

/-- The signature of the owning record, as far as the VMAD codec cares:
the five signatures in `MelVmad._handler_map` get special handling, all
others behave alike. -/
inductive RecType where
  | INFO | PACK | PERK | QUST | SCEN | other
  deriving Repr, DecidableEq

/-- Whether `record.recType in MelVmad._handler_map`. -/
def RecType.hasHandler : RecType → Bool
  | .INFO | .PACK | .PERK | .QUST | .SCEN => true
  | .other => false

/-! ## Decode (`load_data` / `loadData`)

Each definition embeds the `load_data` method of the component class of
the same name; the generic `_AVmadComponent` / `_AVariableContainer` /
`_AFixedContainer` machinery is specialized per class (the `processors`
tables are unrolled into the corresponding sequence of reads). -/

/-- Read a child component exactly `n` times (the decode loop of
`_AVariableContainer.load_data` and of the array readers). -/
def loadList (load : VmadM α) : Nat → VmadM (List α)
  | 0 => pure []
  | n + 1 => do
    let a ← load
    let as ← loadList load n
    pure (a :: as)

/-- `ObjectRef.from_file`: reads an ObjectRef from the input stream using
the current object format (format 1: fid, aid, unused; any other format:
unused, aid, fid). -/
def ObjectRef.from_file (obj_format : Int) : VmadM ObjectRef := do
  if obj_format = 1 then
    let fid ← readU32
    let aid ← readI16
    let _unused ← readU16
    pure ⟨aid, fid⟩
  else
    let _unused ← readU16
    let aid ← readI16
    let fid ← readU32
    pure ⟨aid, fid⟩

/-- `ObjectRef.array_from_file`: a leading 32-bit count, then that many
ObjectRefs. -/
def ObjectRef.array_from_file (obj_format : Int) : VmadM (List ObjectRef) := do
  let n ← readU32
  loadList (ObjectRef.from_file obj_format) n

namespace MelVmad

/-- Bit `i` of a `bolt.Flags` value (what `flags.__getattr__` tests). -/
def flagBit (v i : Nat) : Nat := v / 2 ^ i % 2

/-- Setting bit `i` of a `bolt.Flags` value to `b`
(what `flags.__setattr__` does): clear the bit, then add it back if set. -/
def flagSetBit (v i : Nat) (b : Bool) : Nat :=
  v - flagBit v i * 2 ^ i + (if b then 2 ^ i else 0)

/-- The set of property type tags `Property.load_data` / `dump_data`
dispatch on; any other tag raises `UnrecognizedPropertyType`. -/
def validPropertyType (t : Nat) : Bool :=
  t = 0 ∨ t = 1 ∨ t = 2 ∨ t = 3 ∨ t = 4 ∨ t = 5 ∨
  t = 11 ∨ t = 12 ∨ t = 13 ∨ t = 14 ∨ t = 15

/-- The payload part of `MelVmad.Property.load_data`: read the data in
the format corresponding to the property type just read; an unlisted
type raises a `ModError`. -/
def Property.load_payload (obj_format : Int) (prop_type : Nat) :
    VmadM PropData :=
  if prop_type = 0 then -- null
    pure PropData.null
  else if prop_type = 1 then do -- object
    let r ← ObjectRef.from_file obj_format
    pure (PropData.obj r)
  else if prop_type = 2 then do -- string
    let s ← read_vmad_str16
    pure (PropData.str s)
  else if prop_type = 3 then do -- sint32
    let v ← readI32
    pure (PropData.i32 v)
  else if prop_type = 4 then do -- float
    let bits ← readU32
    pure (PropData.flt bits)
  else if prop_type = 5 then do -- bool (stored as uint8)
    let b ← readU8
    pure (PropData.boolean (b ≠ 0))
  else if prop_type = 11 then do -- object array
    let rs ← ObjectRef.array_from_file obj_format
    pure (PropData.objArray rs)
  else if prop_type = 12 then do -- string array
    let n ← readU32
    let ss ← loadList read_vmad_str16 n
    pure (PropData.strArray ss)
  else if prop_type = 13 then do -- sint32 array
    let n ← readU32
    let vs ← loadList readI32 n
    pure (PropData.i32Array vs)
  else if prop_type = 14 then do -- float array
    let n ← readU32
    let bs ← loadList readU32 n
    pure (PropData.fltArray bs)
  else if prop_type = 15 then do -- bool array (stored as uint8 array)
    let n ← readU32
    let bs ← loadList readU8 n
    pure (PropData.boolArray (bs.map (fun b => b ≠ 0)))
  else
    vmadThrow (.unrecognizedPropertyType prop_type)

/-- `MelVmad.Property.load_data`.  For VMAD version ≥ 4 the processors
read name, type and an explicit flags byte; for version ≤ 3 only name and
type are read and `prop_flags` is unconditionally set to 1 (the `edited`
flag).  The payload is then read per the property type. -/
def Property.load_data (vmad_version obj_format : Int) : VmadM Property := do
  let prop_name ← read_vmad_str16
  let prop_type ← readU8
  let prop_flags ← if vmad_version ≥ 4 then readU8 else pure 1
  let prop_data ← Property.load_payload obj_format prop_type
  pure ⟨prop_name, prop_type, prop_flags, prop_data⟩

/-- `MelVmad.Script.load_data`: processors (name, flags byte, property
count), then `property_count` properties. -/
def Script.load_data (vmad_version obj_format : Int) : VmadM Script := do
  let script_name ← read_vmad_str16
  let script_flags ← readU8
  let property_count ← readU16
  let properties ←
    loadList (Property.load_data vmad_version obj_format) property_count
  pure ⟨script_name, script_flags, property_count, properties⟩

/-- `MelVmad.Alias.load_data`: skip the leading 8-byte ObjectRef, read the
alias's own VMAD version, object format and script count, seek back and
read the ObjectRef using the alias's own object format, skip the three
header fields again, then read the scripts under the alias's own version
and format.  The caller's `vmad_version` / `obj_format` are received but
never used. -/
def Alias.load_data (_vmad_version _obj_format : Int) : VmadM Alias := do
  seekRel 8
  let alias_vmad_version ← readI16
  let alias_obj_format ← readI16
  let script_count ← readU16
  seekRel (-14)
  let alias_ref_obj ← ObjectRef.from_file alias_obj_format
  seekRel 6
  let scripts ←
    loadList (Script.load_data alias_vmad_version alias_obj_format)
      script_count
  pure ⟨alias_ref_obj, alias_vmad_version, alias_obj_format, script_count,
    scripts⟩

/-- `MelVmad.FragmentBasic.load_data` (processors only). -/
def FragmentBasic.load_data (_vmad_version _obj_format : Int) :
    VmadM FragmentBasic := do
  let unknown1 ← readI8
  let script_name ← read_vmad_str16
  let fragment_name ← read_vmad_str16
  pure ⟨unknown1, script_name, fragment_name⟩

/-- `MelVmad.FragmentPERK.load_data` (processors only). -/
def FragmentPERK.load_data (_vmad_version _obj_format : Int) :
    VmadM FragmentPERK := do
  let fragment_index ← readU16
  let unknown1 ← readI16
  let unknown2 ← readI8
  let script_name ← read_vmad_str16
  let fragment_name ← read_vmad_str16
  pure ⟨fragment_index, unknown1, unknown2, script_name, fragment_name⟩

/-- `MelVmad.FragmentQUST.load_data` (processors only). -/
def FragmentQUST.load_data (_vmad_version _obj_format : Int) :
    VmadM FragmentQUST := do
  let quest_stage ← readU16
  let unknown1 ← readI16
  let quest_stage_index ← readU32
  let unknown2 ← readI8
  let script_name ← read_vmad_str16
  let fragment_name ← read_vmad_str16
  pure ⟨quest_stage, unknown1, quest_stage_index, unknown2, script_name,
    fragment_name⟩

/-- `MelVmad.FragmentSCENPhase.load_data`: the processors store the raw
flags byte under `fragment_flags`, but the subsequent flags conversion
reads `record.fragment_phase_flags` — an attribute that was never set and
is not among the record's slots — so after the seven fields are read the
load always raises a Python AttributeError. -/
def FragmentSCENPhase.load_data (_vmad_version _obj_format : Int) :
    VmadM FragmentSCENPhase := do
  let _fragment_flags ← readU8
  let _phase_index ← readU8
  let _unknown1 ← readI16
  let _unknown2 ← readI8
  let _unknown3 ← readI8
  let _script_name ← read_vmad_str16
  let _fragment_name ← read_vmad_str16
  vmadThrow (.attributeError "fragment_phase_flags")

/-- `VmadHandlerINFO.load_data`: processors, then
`_AFixedContainer.load_data` checks each flag in the declared order
(`on_begin` = bit 0, `on_end` = bit 1) and loads the flagged children. -/
def VmadHandlerINFO.load_data (vmad_version obj_format : Int) :
    VmadM VmadHandlerINFOData := do
  let extra_bind_data_version ← readI8
  let fragment_flags ← readU8
  let file_name ← read_vmad_str16
  let begin_frag ←
    if flagBit fragment_flags 0 = 1 then do
      let c ← FragmentBasic.load_data vmad_version obj_format
      pure (some c)
    else pure none
  let end_frag ←
    if flagBit fragment_flags 1 = 1 then do
      let c ← FragmentBasic.load_data vmad_version obj_format
      pure (some c)
    else pure none
  pure ⟨extra_bind_data_version, fragment_flags, file_name, begin_frag,
    end_frag⟩

/-- `VmadHandlerPACK.load_data`: like INFO with a third child
(`on_change` = bit 2). -/
def VmadHandlerPACK.load_data (vmad_version obj_format : Int) :
    VmadM VmadHandlerPACKData := do
  let extra_bind_data_version ← readI8
  let fragment_flags ← readU8
  let file_name ← read_vmad_str16
  let begin_frag ←
    if flagBit fragment_flags 0 = 1 then do
      let c ← FragmentBasic.load_data vmad_version obj_format
      pure (some c)
    else pure none
  let end_frag ←
    if flagBit fragment_flags 1 = 1 then do
      let c ← FragmentBasic.load_data vmad_version obj_format
      pure (some c)
    else pure none
  let change_frag ←
    if flagBit fragment_flags 2 = 1 then do
      let c ← FragmentBasic.load_data vmad_version obj_format
      pure (some c)
    else pure none
  pure ⟨extra_bind_data_version, fragment_flags, file_name, begin_frag,
    end_frag, change_frag⟩

/-- `VmadHandlerPERK` (inherited `_AVariableContainer.load_data`):
processors (version, file name, fragment count), then the fragments. -/
def VmadHandlerPERK.load_data (vmad_version obj_format : Int) :
    VmadM VmadHandlerPERKData := do
  let extra_bind_data_version ← readI8
  let file_name ← read_vmad_str16
  let fragment_count ← readU16
  let fragments ←
    loadList (FragmentPERK.load_data vmad_version obj_format) fragment_count
  pure ⟨extra_bind_data_version, file_name, fragment_count, fragments⟩

/-- `VmadHandlerQUST.load_data`: the regular fragments (processors:
version, fragment count, file name), then a 16-bit alias count and that
many aliases. -/
def VmadHandlerQUST.load_data (vmad_version obj_format : Int) :
    VmadM VmadHandlerQUSTData := do
  let extra_bind_data_version ← readI8
  let fragment_count ← readU16
  let file_name ← read_vmad_str16
  let fragments ←
    loadList (FragmentQUST.load_data vmad_version obj_format) fragment_count
  let alias_count ← readU16
  let aliases ←
    loadList (Alias.load_data vmad_version obj_format) alias_count
  pure ⟨extra_bind_data_version, fragment_count, file_name, fragments,
    aliases⟩

/-- `VmadHandlerSCEN.load_data`: the fixed container part (same layout as
INFO), then a 16-bit phase-fragment count and that many phase
fragments. -/
def VmadHandlerSCEN.load_data (vmad_version obj_format : Int) :
    VmadM VmadHandlerSCENData := do
  let extra_bind_data_version ← readI8
  let fragment_flags ← readU8
  let file_name ← read_vmad_str16
  let begin_frag ←
    if flagBit fragment_flags 0 = 1 then do
      let c ← FragmentBasic.load_data vmad_version obj_format
      pure (some c)
    else pure none
  let end_frag ←
    if flagBit fragment_flags 1 = 1 then do
      let c ← FragmentBasic.load_data vmad_version obj_format
      pure (some c)
    else pure none
  let frag_count ← readU16
  let phase_fragments ←
    loadList (FragmentSCENPhase.load_data vmad_version obj_format) frag_count
  pure ⟨extra_bind_data_version, fragment_flags, file_name, begin_frag,
    end_frag, phase_fragments⟩

/-- Dispatch on `MelVmad._handler_map` for decode. `.other` is never
reached (the caller guards on `RecType.hasHandler`). -/
def specialHandlerLoad (rt : RecType) (vmad_version obj_format : Int) :
    VmadM SpecialData :=
  match rt with
  | .INFO => do
    let d ← VmadHandlerINFO.load_data vmad_version obj_format
    pure (.info d)
  | .PACK => do
    let d ← VmadHandlerPACK.load_data vmad_version obj_format
    pure (.pack d)
  | .PERK => do
    let d ← VmadHandlerPERK.load_data vmad_version obj_format
    pure (.perk d)
  | .QUST => do
    let d ← VmadHandlerQUST.load_data vmad_version obj_format
    pure (.qust d)
  | .SCEN => do
    let d ← VmadHandlerSCEN.load_data vmad_version obj_format
    pure (.scen d)
  | .other => vmadThrow (.attributeError "_handler_map")

/-- The tail of `MelVmad.loadData` after the scripts: if the record type
has a special handler and the cursor is still before the end of the
subrecord, load the special data, else record it as absent. -/
def loadDataTail (rt : RecType) (vmad_version obj_format : Int)
    (end_of_vmad : Nat) (scripts : List Script) : VmadM VmadData := fun s =>
  if rt.hasHandler ∧ s.pos < end_of_vmad then
    (do
      let sd ← specialHandlerLoad rt vmad_version obj_format
      pure (⟨scripts, some sd⟩ : VmadData)) s
  else
    .ok (⟨scripts, none⟩, s)

/-- `MelVmad.loadData`: remembers where the subrecord ends, unpacks and
validates the VMAD header (version 1–5, object format 1 or 2), loads
`script_count` scripts, then the special data when applicable.  A
validation failure raises a `ModError`, so no decoded tree is produced. -/
def loadData (rt : RecType) (size_ : Nat) : VmadM VmadData := fun s0 =>
  let end_of_vmad := s0.pos + size_
  (do
    let vmad_version ← readI16
    let obj_format ← readI16
    let script_count ← readU16
    if vmad_version < 1 ∨ vmad_version > 5 then
      vmadThrow (.unrecognizedVersion vmad_version)
    else if obj_format ≠ 1 ∧ obj_format ≠ 2 then
      vmadThrow (.unrecognizedObjectFormat obj_format)
    else do
      let scripts ←
        loadList (Script.load_data vmad_version obj_format) script_count
      loadDataTail rt vmad_version obj_format end_of_vmad scripts) s0

end MelVmad

/-! ## Encode (`dump_data` / `dumpData`)

The source's `dump_data` methods mutate the in-memory record while
producing bytes (they re-derive count fields, flag words and the alias
version/format).  Each embedding therefore returns the produced bytes
*and* the updated record.  Components whose dump can raise (an
unrecognized property type) return `Except`. -/

/-- `ObjectRef.dump_out`: writes only object format v2
(unused, aid, fid). -/
def ObjectRef.dump_out (r : ObjectRef) : List Nat :=
  w16 0 ++ wi16 r.aid ++ w32 r.fid

/-- `ObjectRef.dump_array`: a leading 32-bit size, then each element. -/
def ObjectRef.dump_array (target_list : List ObjectRef) : List Nat :=
  w32 target_list.length ++ (target_list.map ObjectRef.dump_out).flatten

namespace MelVmad

/-- Python truthiness of a property payload (used by the type-5 dump,
`1 if property_data else 0`).  `None`, numeric zero (including the float
bit patterns of 0.0 and -0.0), and empty strings/lists are falsy. -/
def PropData.truthy : PropData → Bool
  | .null => false
  | .obj _ => true
  | .str s => !s.isEmpty
  | .i32 v => v ≠ 0
  | .flt bits => ¬(bits = 0 ∨ bits = 2147483648)
  | .boolean b => b
  | .objArray rs => !rs.isEmpty
  | .strArray ss => !ss.isEmpty
  | .i32Array vs => !vs.isEmpty
  | .fltArray bs => !bs.isEmpty
  | .boolArray bs => !bs.isEmpty

/-- `MelVmad.Property.dump_data`: the three regular attributes (always the
version-5 processors: name, type, flags byte), then the payload in the
format corresponding to the property type; an unlisted type raises a
`ModError`.  A type tag of 0 ignores the payload entirely.  For the other
recognized tags a payload whose shape does not match the tag raises an
uncaught Python exception in the source; those shape mismatches (which no
decoded tree can exhibit, and which every theorem below excludes via a
well-formedness hypothesis) are modelled uniformly as `attributeError`. -/
def Property.dump_data (r : Property) : Except VmadError (List Nat) :=
  let out_data :=
    dump_vmad_str16 r.prop_name ++ w8 r.prop_type ++ w8 r.prop_flags
  if r.prop_type = 0 then -- null
    .ok out_data
  else if r.prop_type = 1 then -- object
    match r.prop_data with
    | .obj o => .ok (out_data ++ ObjectRef.dump_out o)
    | _ => .error (.attributeError "dump_out")
  else if r.prop_type = 2 then -- string
    match r.prop_data with
    | .str s => .ok (out_data ++ dump_vmad_str16 s)
    | _ => .error (.attributeError "str16")
  else if r.prop_type = 3 then -- sint32
    match r.prop_data with
    | .i32 v => .ok (out_data ++ wi32 v)
    | _ => .error (.attributeError "i32")
  else if r.prop_type = 4 then -- float
    match r.prop_data with
    | .flt bits => .ok (out_data ++ w32 bits)
    | _ => .error (.attributeError "float")
  else if r.prop_type = 5 then -- bool (stored as uint8)
    .ok (out_data ++ w8 (if r.prop_data.truthy then 1 else 0))
  else if r.prop_type = 11 then -- object array
    match r.prop_data with
    | .objArray rs => .ok (out_data ++ ObjectRef.dump_array rs)
    | _ => .error (.attributeError "objArray")
  else if r.prop_type = 12 then -- string array
    match r.prop_data with
    | .strArray ss =>
      .ok (out_data ++ w32 ss.length ++ (ss.map dump_vmad_str16).flatten)
    | _ => .error (.attributeError "strArray")
  else if r.prop_type = 13 then -- sint32 array
    match r.prop_data with
    | .i32Array vs =>
      .ok (out_data ++ w32 vs.length ++ (vs.map wi32).flatten)
    | _ => .error (.attributeError "i32Array")
  else if r.prop_type = 14 then -- float array
    match r.prop_data with
    | .fltArray bs =>
      .ok (out_data ++ w32 bs.length ++ (bs.map w32).flatten)
    | _ => .error (.attributeError "fltArray")
  else if r.prop_type = 15 then -- bool array (stored as uint8 array)
    match r.prop_data with
    | .boolArray bs =>
      .ok (out_data ++ w32 bs.length ++
        (bs.map (fun b => w8 (if b then 1 else 0))).flatten)
    | _ => .error (.attributeError "boolArray")
  else
    .error (.unrecognizedPropertyType r.prop_type)

/-- `MelVmad.Script.dump_data` (via `_AVariableContainer.dump_data`):
update `property_count` from the live list, dump the processors, then
each property. -/
def Script.dump_data (r : Script) : Except VmadError (List Nat × Script) := do
  let r2 := { r with property_count := r.properties.length }
  let pd ← r2.properties.mapM Property.dump_data
  .ok (dump_vmad_str16 r2.script_name ++ w8 r2.script_flags ++
    w16 r2.property_count ++ pd.flatten, r2)

/-- `MelVmad.Alias.dump_data`: dump the ObjectRef (always format v2), set
the alias to VMAD v5 / object format v2, then the parent dump: update
`script_count` from the live list, dump the processors (version, format,
count), then each script. -/
def Alias.dump_data (r : Alias) : Except VmadError (List Nat × Alias) := do
  let out_data := ObjectRef.dump_out r.alias_ref_obj
  let r1 := { r with alias_vmad_version := 5, alias_obj_format := 2 }
  let r2 := { r1 with script_count := r1.scripts.length }
  let sres ← r2.scripts.mapM Script.dump_data
  .ok (out_data ++ wi16 r2.alias_vmad_version ++ wi16 r2.alias_obj_format ++
    w16 r2.script_count ++ (sres.map Prod.fst).flatten,
    { r2 with scripts := sres.map Prod.snd })

/-- `MelVmad.FragmentBasic.dump_data` (processors only; no mutation). -/
def FragmentBasic.dump_data (r : FragmentBasic) : List Nat :=
  wi8 r.unknown1 ++ dump_vmad_str16 r.script_name ++
    dump_vmad_str16 r.fragment_name

/-- `MelVmad.FragmentPERK.dump_data` (processors only; no mutation). -/
def FragmentPERK.dump_data (r : FragmentPERK) : List Nat :=
  w16 r.fragment_index ++ wi16 r.unknown1 ++ wi8 r.unknown2 ++
    dump_vmad_str16 r.script_name ++ dump_vmad_str16 r.fragment_name

/-- `MelVmad.FragmentQUST.dump_data` (processors only; no mutation). -/
def FragmentQUST.dump_data (r : FragmentQUST) : List Nat :=
  w16 r.quest_stage ++ wi16 r.unknown1 ++ w32 r.quest_stage_index ++
    wi8 r.unknown2 ++ dump_vmad_str16 r.script_name ++
    dump_vmad_str16 r.fragment_name

/-- `MelVmad.FragmentSCENPhase.dump_data` (processors only; no
mutation). -/
def FragmentSCENPhase.dump_data (r : FragmentSCENPhase) : List Nat :=
  w8 r.fragment_flags ++ w8 r.phase_index ++ wi16 r.unknown1 ++
    wi8 r.unknown2 ++ wi8 r.unknown3 ++ dump_vmad_str16 r.script_name ++
    dump_vmad_str16 r.fragment_name

/-- `VmadHandlerINFO` dump (via `_AFixedContainer.dump_data`): set the
`on_begin` / `on_end` flag bits from child presence, dump the processors
(with the updated flag byte), then the present children in the declared
order. -/
def VmadHandlerINFO.dump_data (r : VmadHandlerINFOData) :
    List Nat × VmadHandlerINFOData :=
  let ff := flagSetBit (flagSetBit r.fragment_flags 0 r.begin_frag.isSome)
    1 r.end_frag.isSome
  let r2 := { r with fragment_flags := ff }
  let children := r.begin_frag.toList ++ r.end_frag.toList
  (wi8 r2.extra_bind_data_version ++ w8 r2.fragment_flags ++
    dump_vmad_str16 r2.file_name ++
    (children.map FragmentBasic.dump_data).flatten, r2)

/-- `VmadHandlerPACK` dump: like INFO plus the `on_change` bit/child. -/
def VmadHandlerPACK.dump_data (r : VmadHandlerPACKData) :
    List Nat × VmadHandlerPACKData :=
  let ff := flagSetBit (flagSetBit (flagSetBit r.fragment_flags
    0 r.begin_frag.isSome) 1 r.end_frag.isSome) 2 r.change_frag.isSome
  let r2 := { r with fragment_flags := ff }
  let children := r.begin_frag.toList ++ r.end_frag.toList ++
    r.change_frag.toList
  (wi8 r2.extra_bind_data_version ++ w8 r2.fragment_flags ++
    dump_vmad_str16 r2.file_name ++
    (children.map FragmentBasic.dump_data).flatten, r2)

/-- `VmadHandlerPERK` dump (via `_AVariableContainer.dump_data`): update
`fragment_count` from the live list, dump the processors, then the
fragments. -/
def VmadHandlerPERK.dump_data (r : VmadHandlerPERKData) :
    List Nat × VmadHandlerPERKData :=
  let r2 := { r with fragment_count := r.fragments.length }
  (wi8 r2.extra_bind_data_version ++ dump_vmad_str16 r2.file_name ++
    w16 r2.fragment_count ++
    (r2.fragments.map FragmentPERK.dump_data).flatten, r2)

/-- `VmadHandlerQUST.dump_data`: the regular fragments (count updated from
the live list), then a 16-bit alias count derived from the live alias
list and each alias. -/
def VmadHandlerQUST.dump_data (r : VmadHandlerQUSTData) :
    Except VmadError (List Nat × VmadHandlerQUSTData) := do
  let r2 := { r with fragment_count := r.fragments.length }
  let base := wi8 r2.extra_bind_data_version ++ w16 r2.fragment_count ++
    dump_vmad_str16 r2.file_name ++
    (r2.fragments.map FragmentQUST.dump_data).flatten
  let ares ← r2.aliases.mapM Alias.dump_data
  .ok (base ++ w16 r2.aliases.length ++ (ares.map Prod.fst).flatten,
    { r2 with aliases := ares.map Prod.snd })

/-- `VmadHandlerSCEN.dump_data`: the fixed container part (like INFO),
then a 16-bit phase-fragment count derived from the live list and each
phase fragment. -/
def VmadHandlerSCEN.dump_data (r : VmadHandlerSCENData) :
    List Nat × VmadHandlerSCENData :=
  let ff := flagSetBit (flagSetBit r.fragment_flags 0 r.begin_frag.isSome)
    1 r.end_frag.isSome
  let r2 := { r with fragment_flags := ff }
  let children := r.begin_frag.toList ++ r.end_frag.toList
  (wi8 r2.extra_bind_data_version ++ w8 r2.fragment_flags ++
    dump_vmad_str16 r2.file_name ++
    (children.map FragmentBasic.dump_data).flatten ++
    w16 r2.phase_fragments.length ++
    (r2.phase_fragments.map FragmentSCENPhase.dump_data).flatten, r2)

/-- Dispatch on `MelVmad._handler_map` for encode.  The handler is chosen
by the owning record's signature; handing it special data built by a
different handler raises in the source (missing attributes) and is
modelled as `attributeError`. -/
def specialHandlerDump (rt : RecType) (sd : SpecialData) :
    Except VmadError (List Nat × SpecialData) :=
  match rt, sd with
  | .INFO, .info d =>
    let res := VmadHandlerINFO.dump_data d
    .ok (res.1, .info res.2)
  | .PACK, .pack d =>
    let res := VmadHandlerPACK.dump_data d
    .ok (res.1, .pack res.2)
  | .PERK, .perk d =>
    let res := VmadHandlerPERK.dump_data d
    .ok (res.1, .perk res.2)
  | .QUST, .qust d => do
    let res ← VmadHandlerQUST.dump_data d
    .ok (res.1, .qust res.2)
  | .SCEN, .scen d =>
    let res := VmadHandlerSCEN.dump_data d
    .ok (res.1, .scen res.2)
  | _, _ => .error (.attributeError "special_data")

/-- `MelVmad.dumpData`: the VMAD header is always written as version 5,
object format 2; then a script count derived from the live list and each
script; then, when special data is attached and the record type has a
handler, that handler's dump. -/
def dumpData (rt : RecType) (vmad : VmadData) :
    Except VmadError (List Nat × VmadData) := do
  let out1 := wi16 5 ++ wi16 2
  let out2 := w16 vmad.scripts.length
  let sres ← vmad.scripts.mapM Script.dump_data
  let sbytes := (sres.map Prod.fst).flatten
  let scripts2 := sres.map Prod.snd
  match vmad.special_data, rt.hasHandler with
  | some sd, true => do
    let res ← specialHandlerDump rt sd
    .ok (out1 ++ out2 ++ sbytes ++ res.1, ⟨scripts2, some res.2⟩)
  | _, _ => .ok (out1 ++ out2 ++ sbytes, ⟨scripts2, vmad.special_data⟩)

end MelVmad

/-! ## FormID resolution (`map_fids` / `mapFids`)

The caller-supplied `map_function` may be stateful, so it is modelled as
`Nat → σ → Nat × σ` and the state is threaded through the traversal in
call order; instantiating `σ` with a call counter makes the number of
invocations observable. -/

/-- `ObjectRef.map_fids`: apply the function to the fid; store the result
when `save` is set, else discard it. -/
def ObjectRef.map_fids (f : Nat → σ → Nat × σ) (save : Bool)
    (r : ObjectRef) (st : σ) : ObjectRef × σ :=
  let res := f r.fid st
  (if save then { r with fid := res.1 } else r, res.2)

/-- Thread `map_fids` through a list of children in order. -/
def mapFidsList (g : α → σ → α × σ) : List α → σ → List α × σ
  | [], st => ([], st)
  | a :: as, st =>
    let res := g a st
    let rest := mapFidsList g as res.2
    (res.1 :: rest.1, rest.2)

namespace MelVmad

/-- `MelVmad.Property.map_fids`: dispatch on the type tag; only type 1
(object) and type 11 (object array) carry references, every other tag is
skipped.  (For a tree violating the tag/payload-shape invariant the
source raises; such trees are excluded by the well-formedness hypothesis
of every theorem below, so the mismatch arms here simply do nothing.) -/
def Property.map_fids (f : Nat → σ → Nat × σ) (save : Bool)
    (r : Property) (st : σ) : Property × σ :=
  if r.prop_type = 1 then -- object
    match r.prop_data with
    | .obj o =>
      let res := ObjectRef.map_fids f save o st
      ({ r with prop_data := .obj res.1 }, res.2)
    | _ => (r, st)
  else if r.prop_type = 11 then -- object array
    match r.prop_data with
    | .objArray rs =>
      let res := mapFidsList (ObjectRef.map_fids f save) rs st
      ({ r with prop_data := .objArray res.1 }, res.2)
    | _ => (r, st)
  else (r, st)

/-- `MelVmad.Script.map_fids` (via `_AVariableContainer.map_fids`): map
each property. -/
def Script.map_fids (f : Nat → σ → Nat × σ) (save : Bool)
    (r : Script) (st : σ) : Script × σ :=
  let res := mapFidsList (Property.map_fids f save) r.properties st
  ({ r with properties := res.1 }, res.2)

/-- `MelVmad.Alias.map_fids`: the embedded object reference, then each
script of the alias. -/
def Alias.map_fids (f : Nat → σ → Nat × σ) (save : Bool)
    (r : Alias) (st : σ) : Alias × σ :=
  let res := ObjectRef.map_fids f save r.alias_ref_obj st
  let res2 := mapFidsList (Script.map_fids f save) r.scripts res.2
  ({ r with alias_ref_obj := res.1, scripts := res2.1 }, res2.2)

/-- `VmadHandlerQUST.map_fids`: QUST fragments cannot contain fids, only
the aliases are traversed. -/
def VmadHandlerQUST.map_fids (f : Nat → σ → Nat × σ) (save : Bool)
    (r : VmadHandlerQUSTData) (st : σ) : VmadHandlerQUSTData × σ :=
  let res := mapFidsList (Alias.map_fids f save) r.aliases st
  ({ r with aliases := res.1 }, res.2)

/-- `map_fids` of the special-data handlers: INFO / PACK / SCEN inherit
the do-nothing default; PERK maps its fragments, which have no
`map_fids` of their own (a no-op); QUST traverses its aliases.  A
handler/special-data mismatch cannot arise for decoded trees and is a
no-op or a raise in the source; it is modelled as a no-op. -/
def specialHandlerMapFids (rt : RecType) (f : Nat → σ → Nat × σ)
    (save : Bool) (sd : SpecialData) (st : σ) : SpecialData × σ :=
  match rt, sd with
  | .QUST, .qust d =>
    let res := VmadHandlerQUST.map_fids f save d st
    (.qust res.1, res.2)
  | _, _ => (sd, st)

/-- `MelVmad.mapFids`: every script, then the special data when present
and the record type has a handler. -/
def mapFids (rt : RecType) (f : Nat → σ → Nat × σ) (save : Bool)
    (vmad : VmadData) (st : σ) : VmadData × σ :=
  let res := mapFidsList (Script.map_fids f save) vmad.scripts st
  match vmad.special_data, rt.hasHandler with
  | some sd, true =>
    let res2 := specialHandlerMapFids rt f save sd res.2
    (⟨res.1, some res2.1⟩, res2.2)
  | _, _ => (⟨res.1, vmad.special_data⟩, res.2)

end MelVmad

/-! ## Reference decoders written from the specification

These definitions follow the specification's words rather than the
source; the theorems below compare them with the source embeddings
(refinement claims). -/

namespace MelVmad

/-- Spec-side property decode for header version ≥ 4: name, type tag,
then an explicit flags byte, then the payload. -/
def Property.load_data_spec_new (obj_format : Int) : VmadM Property := do
  let prop_name ← read_vmad_str16
  let prop_type ← readU8
  let prop_flags ← readU8
  let prop_data ← Property.load_payload obj_format prop_type
  pure ⟨prop_name, prop_type, prop_flags, prop_data⟩

/-- Spec-side property decode for header version ≤ 3: name and type tag
only; no stored flags byte; the flags are unconditionally the `edited`
flag (value 1); then the payload. -/
def Property.load_data_spec_old (obj_format : Int) : VmadM Property := do
  let prop_name ← read_vmad_str16
  let prop_type ← readU8
  let prop_data ← Property.load_payload obj_format prop_type
  pure ⟨prop_name, prop_type, 1, prop_data⟩

/-- Spec-side alias decode, as the two-stage decode the specification
describes: (1) peek the alias's own version / object format / script
count located after the 8-byte embedded object reference, (2) decode the
object reference from the alias's start using the just-derived format,
(3) resume linear decode after the header fields, reading `script_count`
scripts under the alias's own version and format.  The outer header's
version and format are not consulted at all. -/
def Alias.load_data_spec : VmadM Alias := fun s0 =>
  match (do
      let v ← readI16
      let f ← readI16
      let c ← readU16
      pure (v, f, c) : VmadM (Int × Int × Nat)) ⟨s0.data, s0.pos + 8⟩ with
  | .error e => .error e
  | .ok ((v, f, c), _) =>
    match ObjectRef.from_file f ⟨s0.data, s0.pos⟩ with
    | .error e => .error e
    | .ok (ref, _) =>
      (do
        let scripts ← loadList (Script.load_data v f) c
        pure (⟨ref, v, f, c, scripts⟩ : Alias)) ⟨s0.data, s0.pos + 14⟩

end MelVmad

/-! ## Well-formedness

Value bounds under which the Python `struct.pack` calls succeed and are
inverted exactly by the corresponding unpack (the bounds every decoded
tree satisfies), and the tag/payload shape coherence that every decoded
tree satisfies. -/

/-- A wire byte. -/
def byteOk (b : Nat) : Bool := b < 256

/-- A VMAD string: packable length prefix and wire bytes. -/
def str16Ok (s : List Nat) : Bool := s.length < 65536 && s.all byteOk

/-- Packable as `struct` code b. -/
def i8Ok (v : Int) : Bool := -128 ≤ v && v < 128

/-- Packable as `struct` code h. -/
def i16Ok (v : Int) : Bool := -32768 ≤ v && v < 32768

/-- Packable as `struct` code i. -/
def i32Ok (v : Int) : Bool := -2147483648 ≤ v && v < 2147483648

/-- Packable as `struct` code H. -/
def u16Ok (v : Nat) : Bool := v < 65536

/-- Packable as `struct` code I. -/
def u32Ok (v : Nat) : Bool := v < 4294967296

/-- Well-formed object reference. -/
def ObjectRef.wf (r : ObjectRef) : Bool := i16Ok r.aid && u32Ok r.fid

namespace MelVmad

/-- The payload shape matches the declared type tag (what
`Property.load_data` guarantees and the type-tag dispatches rely on). -/
def Property.shapeOk (p : Property) : Bool :=
  if p.prop_type = 1 then
    match p.prop_data with
    | .obj _ => true
    | _ => false
  else if p.prop_type = 11 then
    match p.prop_data with
    | .objArray _ => true
    | _ => false
  else true

/-- Shape coherence for a script. -/
def Script.shapeOk (s : Script) : Bool := s.properties.all Property.shapeOk

/-- Shape coherence for an alias. -/
def Alias.shapeOk (a : Alias) : Bool := a.scripts.all Script.shapeOk

/-- The special data was built by the handler of the given record type. -/
def SpecialData.matchesRt (rt : RecType) : SpecialData → Bool
  | .info _ => rt = .INFO
  | .pack _ => rt = .PACK
  | .perk _ => rt = .PERK
  | .qust _ => rt = .QUST
  | .scen _ => rt = .SCEN

/-- Shape coherence for a whole decoded VMAD tree owned by a record of
the given type. -/
def VmadData.shapeOk (rt : RecType) (v : VmadData) : Bool :=
  v.scripts.all Script.shapeOk &&
  (match v.special_data with
   | none => true
   | some sd =>
     (!rt.hasHandler || sd.matchesRt rt) &&
     (match sd with
      | .qust d => d.aliases.all Alias.shapeOk
      | _ => true))

/-- Full well-formedness of a property: wire bounds plus shape. -/
def Property.wf (p : Property) : Bool :=
  str16Ok p.prop_name && byteOk p.prop_type && byteOk p.prop_flags &&
  (match p.prop_type, p.prop_data with
   | 0, .null => true
   | 1, .obj o => o.wf
   | 2, .str s => str16Ok s
   | 3, .i32 v => i32Ok v
   | 4, .flt bits => u32Ok bits
   | 5, .boolean _ => true
   | 11, .objArray rs => u32Ok rs.length && rs.all ObjectRef.wf
   | 12, .strArray ss => u32Ok ss.length && ss.all str16Ok
   | 13, .i32Array vs => u32Ok vs.length && vs.all i32Ok
   | 14, .fltArray bs => u32Ok bs.length && bs.all u32Ok
   | 15, .boolArray bs => u32Ok bs.length
   | _, _ => false)

/-- Full well-formedness of a basic fragment. -/
def FragmentBasic.wf (f : FragmentBasic) : Bool :=
  i8Ok f.unknown1 && str16Ok f.script_name && str16Ok f.fragment_name

end MelVmad

/-! ## Reference-leaf counting and the pure reference map (spec side)

`refCount` counts the object-reference-bearing leaves the specification
says the resolver must visit; `mapRefsSpec` is the pure tree map the
specification describes for save mode (only the reference fields
change). -/

namespace MelVmad

/-- Reference leaves in one property. -/
def Property.refCount (p : Property) : Nat :=
  if p.prop_type = 1 then
    match p.prop_data with
    | .obj _ => 1
    | _ => 0
  else if p.prop_type = 11 then
    match p.prop_data with
    | .objArray rs => rs.length
    | _ => 0
  else 0

/-- Reference leaves in one script. -/
def Script.refCount (s : Script) : Nat :=
  (s.properties.map Property.refCount).sum

/-- Reference leaves in one alias (its embedded reference plus its
scripts). -/
def Alias.refCount (a : Alias) : Nat :=
  1 + (a.scripts.map Script.refCount).sum

/-- Reference leaves the resolver visits inside special data. -/
def specialRefCount (rt : RecType) (sd : SpecialData) : Nat :=
  match rt, sd with
  | .QUST, .qust d => (d.aliases.map Alias.refCount).sum
  | _, _ => 0

/-- Reference leaves the resolver visits in a whole tree. -/
def VmadData.refCount (rt : RecType) (v : VmadData) : Nat :=
  (v.scripts.map Script.refCount).sum +
  (match v.special_data, rt.hasHandler with
   | some sd, true => specialRefCount rt sd
   | _, _ => 0)

/-- Spec-side save-mode action on one reference leaf. -/
def ObjectRef.mapRefsSpec (g : Nat → Nat) (r : ObjectRef) : ObjectRef :=
  { r with fid := g r.fid }

/-- Spec-side save-mode action on one property: only object-reference
and object-reference-array payloads change, every other property is left
untouched. -/
def Property.mapRefsSpec (g : Nat → Nat) (p : Property) : Property :=
  if p.prop_type = 1 then
    match p.prop_data with
    | .obj o => { p with prop_data := .obj (ObjectRef.mapRefsSpec g o) }
    | _ => p
  else if p.prop_type = 11 then
    match p.prop_data with
    | .objArray rs =>
      { p with prop_data := .objArray (rs.map (ObjectRef.mapRefsSpec g)) }
    | _ => p
  else p

/-- Spec-side save-mode action on one script. -/
def Script.mapRefsSpec (g : Nat → Nat) (s : Script) : Script :=
  { s with properties := s.properties.map (Property.mapRefsSpec g) }

/-- Spec-side save-mode action on one alias. -/
def Alias.mapRefsSpec (g : Nat → Nat) (a : Alias) : Alias :=
  { a with alias_ref_obj := ObjectRef.mapRefsSpec g a.alias_ref_obj,
           scripts := a.scripts.map (Script.mapRefsSpec g) }

/-- Spec-side save-mode action on special data. -/
def specialMapRefsSpec (rt : RecType) (g : Nat → Nat) (sd : SpecialData) :
    SpecialData :=
  match rt, sd with
  | .QUST, .qust d => .qust { d with aliases := d.aliases.map (Alias.mapRefsSpec g) }
  | _, _ => sd

/-- Spec-side save-mode action on a whole tree. -/
def VmadData.mapRefsSpec (rt : RecType) (g : Nat → Nat) (v : VmadData) :
    VmadData :=
  ⟨v.scripts.map (Script.mapRefsSpec g),
   match v.special_data, rt.hasHandler with
   | some sd, true => some (specialMapRefsSpec rt g sd)
   | _, _ => v.special_data⟩

end MelVmad

/-! ## Executable checkers used by the property-dispatch claims -/

/-- Whether `Property.load_data` (version 5, object format 2) recognizes
the type tag `t`: decode the minimal property header with that tag (empty
name, flags byte 1) and check that the result is not an
`UnrecognizedPropertyType` error. -/
def property_tag_recognized (t : Nat) : Bool :=
  match MelVmad.Property.load_data 5 2 ⟨[0, 0, t, 1], 0⟩ with
  | .error (.unrecognizedPropertyType _) => false
  | _ => true

/-- Decode-then-encode byte fidelity at version 5 / object format 2: the
bytes decode to a property that consumed the whole input, and dumping
that property reproduces the input bytes exactly. -/
def property_roundtrip (data : List Nat) : Bool :=
  match MelVmad.Property.load_data 5 2 ⟨data, 0⟩ with
  | .ok (p, s) =>
    decide (MelVmad.Property.dump_data p = Except.ok data ∧
      s = ⟨data, data.length⟩)
  | .error _ => false

/-! ## Basic lemmas about the stream monad and the primitive codecs -/

/-- Advance the cursor by `n` bytes. -/
def VmadStream.advance (s : VmadStream) (n : Nat) : VmadStream :=
  ⟨s.data, s.pos + n⟩

/-- What a computation reads from the front of the stream and what it
returns: `m` consumes exactly the bytes `enc` and produces `a`. -/
def ReadsTo (m : VmadM α) (enc : List Nat) (a : α) : Prop :=
  ∀ s rest, s.data.drop s.pos = enc ++ rest → s.pos ≤ s.data.length →
    m s = .ok (a, s.advance enc.length)

theorem VmadM.bind_apply (m : VmadM α) (f : α → VmadM β) (s : VmadStream) :
    (m >>= f) s =
      match m s with
      | .error e => .error e
      | .ok (a, s2) => f a s2 := rfl

theorem VmadM.pure_apply (a : α) (s : VmadStream) :
    (pure a : VmadM α) s = .ok (a, s) := rfl

theorem VmadM.map_eq (g : α → β) (m : VmadM α) :
    (g <$> m) = m >>= fun a => pure (g a) := rfl

@[simp] theorem leVal_nil : leVal [] = 0 := rfl

@[simp] theorem leVal_cons (b : Nat) (bs : List Nat) :
    leVal (b :: bs) = b + 256 * leVal bs := rfl

@[simp] theorem VmadStream.advance_data (s : VmadStream) (n : Nat) :
    (s.advance n).data = s.data := rfl

@[simp] theorem VmadStream.advance_pos (s : VmadStream) (n : Nat) :
    (s.advance n).pos = s.pos + n := rfl

@[simp] theorem VmadStream.advance_advance (s : VmadStream) (n m : Nat) :
    (s.advance n).advance m = s.advance (n + m) := by
  simp [VmadStream.advance, Nat.add_assoc]

theorem leVal_w16 (v : Nat) : leVal (w16 v) = v % 65536 := by
  simp [w16]; omega

theorem leVal_w32 (v : Nat) : leVal (w32 v) = v % 4294967296 := by
  simp [w32]; omega

/-- For a value within one modulus-width of range, the euclidean
remainder is either the value itself or the value shifted up by one
modulus. -/
theorem emod_cases (v m : Int) (hlo : -m ≤ v) (hhi : v < m) :
    v % m = v ∨ v % m = v + m := by
  rcases le_or_lt 0 v with hv | hv
  · left
    exact Int.emod_eq_of_lt hv hhi
  · right
    have h1 : (v + m) % m = v % m := by
      have h2 := Int.add_mul_emod_self_left (a := v) (b := m) (c := 1)
      rw [mul_one] at h2
      exact h2
    rw [← h1]
    exact Int.emod_eq_of_lt (by omega) (by omega)

theorem toI16_wi16 (v : Int) (h : i16Ok v) :
    toI16 (leVal (wi16 v)) = v := by
  simp only [i16Ok, Bool.and_eq_true, decide_eq_true_eq] at h
  have h0 : (0:Int) ≤ v % 65536 := Int.emod_nonneg v (by norm_num)
  have h1 : v % 65536 < 65536 := Int.emod_lt_of_pos v (by norm_num)
  have h2 := emod_cases v 65536 (by omega) (by omega)
  have hk : ((v % 65536).toNat : Int) = v % 65536 :=
    Int.toNat_of_nonneg h0
  simp only [wi16, leVal_w16, toI16]
  split_ifs <;> omega

theorem toI8_wi8 (v : Int) (h : i8Ok v) : toI8 (leVal (wi8 v)) = v := by
  simp only [i8Ok, Bool.and_eq_true, decide_eq_true_eq] at h
  have h0 : (0:Int) ≤ v % 256 := Int.emod_nonneg v (by norm_num)
  have h1 : v % 256 < 256 := Int.emod_lt_of_pos v (by norm_num)
  have h2 := emod_cases v 256 (by omega) (by omega)
  have hk : ((v % 256).toNat : Int) = v % 256 := Int.toNat_of_nonneg h0
  simp only [wi8, w8, leVal_cons, leVal_nil, toI8]
  split_ifs <;> omega

theorem toI32_wi32 (v : Int) (h : i32Ok v) :
    toI32 (leVal (wi32 v)) = v := by
  simp only [i32Ok, Bool.and_eq_true, decide_eq_true_eq] at h
  have h0 : (0:Int) ≤ v % 4294967296 := Int.emod_nonneg v (by norm_num)
  have h1 : v % 4294967296 < 4294967296 := Int.emod_lt_of_pos v (by norm_num)
  have h2 := emod_cases v 4294967296 (by omega) (by omega)
  have hk : ((v % 4294967296).toNat : Int) = v % 4294967296 :=
    Int.toNat_of_nonneg h0
  simp only [wi32, leVal_w32, toI32]
  split_ifs <;> omega

@[simp] theorem w8_length (v : Nat) : (w8 v).length = 1 := rfl

@[simp] theorem w16_length (v : Nat) : (w16 v).length = 2 := rfl

@[simp] theorem w32_length (v : Nat) : (w32 v).length = 4 := rfl

@[simp] theorem wi8_length (v : Int) : (wi8 v).length = 1 := rfl

@[simp] theorem wi16_length (v : Int) : (wi16 v).length = 2 := rfl

@[simp] theorem wi32_length (v : Int) : (wi32 v).length = 4 := rfl

@[simp] theorem dump_vmad_str16_length (s : List Nat) :
    (dump_vmad_str16 s).length = 2 + s.length := by
  simp [dump_vmad_str16]

/-- Closed form of `readBytes`. -/
theorem readBytes_eq (n : Nat) (s : VmadStream) :
    readBytes n s =
      if s.pos + n ≤ s.data.length then
        .ok ((s.data.drop s.pos).take n, s.advance n)
      else
        .error .truncatedData := rfl

theorem ReadsTo.pure (a : α) : ReadsTo (pure a) [] a := by
  intro s rest h hp
  simp [VmadM.pure_apply, VmadStream.advance]

theorem ReadsTo.bind {m : VmadM α} {f : α → VmadM β} {e1 e2 : List Nat}
    {a : α} {b : β} (h1 : ReadsTo m e1 a) (h2 : ReadsTo (f a) e2 b) :
    ReadsTo (m >>= f) (e1 ++ e2) b := by
  intro s rest h hp
  have hlen : s.data.length - s.pos = e1.length + (e2.length + rest.length) := by
    have := congrArg List.length h
    simpa [List.length_drop, List.length_append] using this
  rw [VmadM.bind_apply, h1 s (e2 ++ rest) (by simpa [List.append_assoc] using h) hp]
  dsimp only
  have h2' := h2 (s.advance e1.length) rest
    (by
      simp only [VmadStream.advance_data, VmadStream.advance_pos]
      rw [← List.drop_drop, h]
      simp) (by simp; omega)
  rw [h2']
  simp [List.length_append, Nat.add_assoc]

theorem readBytes_readsTo (bs : List Nat) : ReadsTo (readBytes bs.length) bs bs := by
  intro s rest h hp
  have hlen : s.data.length - s.pos = bs.length + rest.length := by
    have := congrArg List.length h
    simpa [List.length_drop, List.length_append] using this
  rw [readBytes_eq, if_pos (by omega)]
  congr 1
  rw [h]
  simp [List.take_append]

theorem readU8_readsTo (b : Nat) (h : b < 256) : ReadsTo readU8 (w8 b) b := by
  have := (readBytes_readsTo (w8 b)).bind (f := fun bs => pure (leVal bs))
    (ReadsTo.pure (leVal (w8 b)))
  simp only [List.append_nil] at this
  simpa [readU8, w8, Nat.mod_eq_of_lt h] using this

theorem readU16_readsTo (v : Nat) (h : v < 65536) :
    ReadsTo readU16 (w16 v) v := by
  have := (readBytes_readsTo (w16 v)).bind (f := fun bs => pure (leVal bs))
    (ReadsTo.pure (leVal (w16 v)))
  simp only [List.append_nil] at this
  simpa [readU16, leVal_w16, Nat.mod_eq_of_lt h] using this

theorem readU32_readsTo (v : Nat) (h : v < 4294967296) :
    ReadsTo readU32 (w32 v) v := by
  have := (readBytes_readsTo (w32 v)).bind (f := fun bs => pure (leVal bs))
    (ReadsTo.pure (leVal (w32 v)))
  simp only [List.append_nil] at this
  simpa [readU32, leVal_w32, Nat.mod_eq_of_lt h] using this

theorem readI8_readsTo (v : Int) (h : i8Ok v) : ReadsTo readI8 (wi8 v) v := by
  have := (readBytes_readsTo (wi8 v)).bind (f := fun bs => pure (toI8 (leVal bs)))
    (ReadsTo.pure (toI8 (leVal (wi8 v))))
  simp only [List.append_nil] at this
  simpa [readI8, toI8_wi8 v h] using this

theorem readI16_readsTo (v : Int) (h : i16Ok v) :
    ReadsTo readI16 (wi16 v) v := by
  have := (readBytes_readsTo (wi16 v)).bind (f := fun bs => pure (toI16 (leVal bs)))
    (ReadsTo.pure (toI16 (leVal (wi16 v))))
  simp only [List.append_nil] at this
  simpa [readI16, toI16_wi16 v h] using this

theorem readI32_readsTo (v : Int) (h : i32Ok v) :
    ReadsTo readI32 (wi32 v) v := by
  have := (readBytes_readsTo (wi32 v)).bind (f := fun bs => pure (toI32 (leVal bs)))
    (ReadsTo.pure (toI32 (leVal (wi32 v))))
  simp only [List.append_nil] at this
  simpa [readI32, toI32_wi32 v h] using this

theorem read_vmad_str16_readsTo (sv : List Nat) (h : str16Ok sv) :
    ReadsTo read_vmad_str16 (dump_vmad_str16 sv) sv := by
  have hlen : sv.length < 65536 := by
    simp only [str16Ok, Bool.and_eq_true, decide_eq_true_eq] at h
    exact h.1
  have := (readU16_readsTo sv.length hlen).bind
    (f := fun n => readBytes n) (readBytes_readsTo sv)
  simpa [read_vmad_str16, dump_vmad_str16] using this

/-- `ReadsTo` for a counted list of children. -/
theorem loadList_readsTo {m : VmadM α} {enc : β → List Nat} {dec : β → α}
    (hone : ∀ b ∈ bl, ReadsTo m (enc b) (dec b)) :
    ∀ (bl2 : List β), bl2 ⊆ bl →
      ReadsTo (loadList m bl2.length) ((bl2.map enc).flatten) (bl2.map dec) := by
  intro bl2 hsub
  induction bl2 with
  | nil =>
    intro s rest h hp
    simp only [List.length_nil, loadList, List.map_nil]
    exact ReadsTo.pure ([] : List α) s rest (by simpa using h) hp
  | cons hd tl ih =>
    have hhd : ReadsTo m (enc hd) (dec hd) := hone hd (hsub (by simp))
    have htl := ih (fun x hx => hsub (List.mem_cons_of_mem _ hx))
    intro s rest h hp
    simp only [List.length_cons, List.map_cons, List.flatten_cons]
    have : ReadsTo (loadList m (tl.length + 1))
        (enc hd ++ (tl.map enc).flatten) (dec hd :: tl.map dec) := by
      simpa [loadList] using
        hhd.bind (f := fun a => do
          let as ← loadList m tl.length
          pure (a :: as))
          (htl.bind (f := fun as => pure (dec hd :: as))
            (ReadsTo.pure (dec hd :: tl.map dec)))
    exact this s rest h hp

/-! ## Closed forms of the primitive reads -/

theorem readU8_eq (s : VmadStream) :
    readU8 s =
      if s.pos + 1 ≤ s.data.length then
        .ok (leVal ((s.data.drop s.pos).take 1), s.advance 1)
      else .error .truncatedData := by
  by_cases hc : s.pos + 1 ≤ s.data.length <;>
    simp [readU8, VmadM.bind_apply, readBytes_eq, hc, VmadM.pure_apply]

theorem readI8_eq (s : VmadStream) :
    readI8 s =
      if s.pos + 1 ≤ s.data.length then
        .ok (toI8 (leVal ((s.data.drop s.pos).take 1)), s.advance 1)
      else .error .truncatedData := by
  by_cases hc : s.pos + 1 ≤ s.data.length <;>
    simp [readI8, VmadM.bind_apply, readBytes_eq, hc, VmadM.pure_apply]

theorem readU16_eq (s : VmadStream) :
    readU16 s =
      if s.pos + 2 ≤ s.data.length then
        .ok (leVal ((s.data.drop s.pos).take 2), s.advance 2)
      else .error .truncatedData := by
  by_cases hc : s.pos + 2 ≤ s.data.length <;>
    simp [readU16, VmadM.bind_apply, readBytes_eq, hc, VmadM.pure_apply]

theorem readI16_eq (s : VmadStream) :
    readI16 s =
      if s.pos + 2 ≤ s.data.length then
        .ok (toI16 (leVal ((s.data.drop s.pos).take 2)), s.advance 2)
      else .error .truncatedData := by
  by_cases hc : s.pos + 2 ≤ s.data.length <;>
    simp [readI16, VmadM.bind_apply, readBytes_eq, hc, VmadM.pure_apply]

theorem readU32_eq (s : VmadStream) :
    readU32 s =
      if s.pos + 4 ≤ s.data.length then
        .ok (leVal ((s.data.drop s.pos).take 4), s.advance 4)
      else .error .truncatedData := by
  by_cases hc : s.pos + 4 ≤ s.data.length <;>
    simp [readU32, VmadM.bind_apply, readBytes_eq, hc, VmadM.pure_apply]

theorem readI32_eq (s : VmadStream) :
    readI32 s =
      if s.pos + 4 ≤ s.data.length then
        .ok (toI32 (leVal ((s.data.drop s.pos).take 4)), s.advance 4)
      else .error .truncatedData := by
  by_cases hc : s.pos + 4 ≤ s.data.length <;>
    simp [readI32, VmadM.bind_apply, readBytes_eq, hc, VmadM.pure_apply]

/-- A stream holding eight known bytes at the cursor. -/
theorem drop_take_of_eight {s : VmadStream} {b0 b1 b2 b3 b4 b5 b6 b7 : Nat}
    {rest : List Nat}
    (h : s.data.drop s.pos = [b0, b1, b2, b3, b4, b5, b6, b7] ++ rest)
    (hp : s.pos ≤ s.data.length) :
    s.pos + 8 ≤ s.data.length ∧
    (s.data.drop s.pos).take 4 = [b0, b1, b2, b3] ∧
    (s.data.drop (s.pos + 2)).take 2 = [b2, b3] ∧
    (s.data.drop (s.pos + 4)).take 2 = [b4, b5] ∧
    (s.data.drop (s.pos + 4)).take 4 = [b4, b5, b6, b7] ∧
    (s.data.drop (s.pos + 2)).take 2 = [b2, b3] := by
  have hlen : s.data.length - s.pos = 8 + rest.length := by
    have := congrArg List.length h
    simp only [List.length_drop, List.length_append, List.length_cons,
      List.length_nil] at this
    omega
  have h2 : s.data.drop (s.pos + 2) = [b2, b3, b4, b5, b6, b7] ++ rest := by
    rw [← List.drop_drop, h]; rfl
  have h4 : s.data.drop (s.pos + 4) = [b4, b5, b6, b7] ++ rest := by
    rw [← List.drop_drop, h]; rfl
  refine ⟨by omega, ?_, ?_, ?_, ?_, ?_⟩ <;> simp [h, h2, h4]

/-! ## ObjectRef wire format -/

theorem readsTo_readU16_bytes (b0 b1 : Nat) :
    ReadsTo readU16 [b0, b1] (leVal [b0, b1]) := by
  have := (readBytes_readsTo [b0, b1]).bind
    (f := fun bs => pure (leVal bs)) (ReadsTo.pure (leVal [b0, b1]))
  simpa [readU16] using this

theorem readsTo_readI16_bytes (b0 b1 : Nat) :
    ReadsTo readI16 [b0, b1] (toI16 (leVal [b0, b1])) := by
  have := (readBytes_readsTo [b0, b1]).bind
    (f := fun bs => pure (toI16 (leVal bs)))
    (ReadsTo.pure (toI16 (leVal [b0, b1])))
  simpa [readI16] using this

theorem readsTo_readU32_bytes (b0 b1 b2 b3 : Nat) :
    ReadsTo readU32 [b0, b1, b2, b3] (leVal [b0, b1, b2, b3]) := by
  have := (readBytes_readsTo [b0, b1, b2, b3]).bind
    (f := fun bs => pure (leVal bs)) (ReadsTo.pure (leVal [b0, b1, b2, b3]))
  simpa [readU32] using this

/-- Format 1 reads fid (4 bytes), then aid (2 bytes), then 2 unused
bytes. -/
theorem ObjectRef.from_file_fmt1_readsTo (b0 b1 b2 b3 b4 b5 b6 b7 : Nat) :
    ReadsTo (ObjectRef.from_file 1) [b0, b1, b2, b3, b4, b5, b6, b7]
      ⟨toI16 (leVal [b4, b5]), leVal [b0, b1, b2, b3]⟩ := by
  have := (readsTo_readU32_bytes b0 b1 b2 b3).bind
    (f := fun fid => do
      let aid ← readI16
      let _unused ← readU16
      pure (⟨aid, fid⟩ : ObjectRef))
    ((readsTo_readI16_bytes b4 b5).bind
      (f := fun aid => do
        let _unused ← readU16
        pure (⟨aid, leVal [b0, b1, b2, b3]⟩ : ObjectRef))
      ((readsTo_readU16_bytes b6 b7).bind
        (f := fun _unused =>
          pure (⟨toI16 (leVal [b4, b5]), leVal [b0, b1, b2, b3]⟩ : ObjectRef))
        (ReadsTo.pure _)))
  simpa [ObjectRef.from_file] using this

/-- Format 2 (the `else` branch) reads 2 unused bytes, then aid, then
fid. -/
theorem ObjectRef.from_file_fmt2_readsTo (b0 b1 b2 b3 b4 b5 b6 b7 : Nat) :
    ReadsTo (ObjectRef.from_file 2) [b0, b1, b2, b3, b4, b5, b6, b7]
      ⟨toI16 (leVal [b2, b3]), leVal [b4, b5, b6, b7]⟩ := by
  have := (readsTo_readU16_bytes b0 b1).bind
    (f := fun _unused => do
      let aid ← readI16
      let fid ← readU32
      pure (⟨aid, fid⟩ : ObjectRef))
    ((readsTo_readI16_bytes b2 b3).bind
      (f := fun aid => do
        let fid ← readU32
        pure (⟨aid, fid⟩ : ObjectRef))
      ((readsTo_readU32_bytes b4 b5 b6 b7).bind
        (f := fun fid =>
          pure (⟨toI16 (leVal [b2, b3]), fid⟩ : ObjectRef))
        (ReadsTo.pure _)))
  simpa [ObjectRef.from_file] using this

/-- Decoding `dump_out` output under format 2 recovers the reference. -/
theorem ObjectRef.from_file_dump_out_readsTo (r : ObjectRef) (h : r.wf) :
    ReadsTo (ObjectRef.from_file 2) r.dump_out r := by
  have haid : i16Ok r.aid := by
    simp only [ObjectRef.wf, Bool.and_eq_true] at h
    exact h.1
  have hfid : r.fid < 4294967296 := by
    simp only [ObjectRef.wf, u32Ok, Bool.and_eq_true, decide_eq_true_eq] at h
    exact h.2
  have := (readU16_readsTo 0 (by norm_num)).bind
    (f := fun _unused => do
      let aid ← readI16
      let fid ← readU32
      pure (⟨aid, fid⟩ : ObjectRef))
    ((readI16_readsTo r.aid haid).bind
      (f := fun aid => do
        let fid ← readU32
        pure (⟨aid, fid⟩ : ObjectRef))
      ((readU32_readsTo r.fid hfid).bind
        (f := fun fid => pure (⟨r.aid, fid⟩ : ObjectRef))
        (ReadsTo.pure _)))
  simpa [ObjectRef.from_file, ObjectRef.dump_out] using this

/-- C4: every object reference occupies exactly 8 bytes on the wire;
format 1 decodes fid (little-endian, bytes 0–3), aid (bytes 4–5), pad
(bytes 6–7); format 2 decodes pad (bytes 0–1), aid (bytes 2–3), fid
(bytes 4–7); encoding always emits the format-2 ordering, so decoding
the encoded bytes under format 2 recovers the reference after exactly 8
bytes. -/
theorem C4_object_ref_eight_bytes :
    (∀ (s : VmadStream) (b0 b1 b2 b3 b4 b5 b6 b7 : Nat) (rest : List Nat),
      s.data.drop s.pos = [b0, b1, b2, b3, b4, b5, b6, b7] ++ rest →
      s.pos ≤ s.data.length →
      ObjectRef.from_file 1 s =
        .ok (⟨toI16 (leVal [b4, b5]), leVal [b0, b1, b2, b3]⟩, s.advance 8) ∧
      ObjectRef.from_file 2 s =
        .ok (⟨toI16 (leVal [b2, b3]), leVal [b4, b5, b6, b7]⟩, s.advance 8)) ∧
    (∀ r : ObjectRef, (ObjectRef.dump_out r).length = 8) ∧
    (∀ (r : ObjectRef) (s : VmadStream) (rest : List Nat), r.wf →
      s.data.drop s.pos = ObjectRef.dump_out r ++ rest →
      s.pos ≤ s.data.length →
      ObjectRef.from_file 2 s = .ok (r, s.advance 8)) := by
  refine ⟨fun s b0 b1 b2 b3 b4 b5 b6 b7 rest h hp => ⟨?_, ?_⟩, fun r => ?_,
    fun r s rest hwf h hp => ?_⟩
  · simpa using ObjectRef.from_file_fmt1_readsTo b0 b1 b2 b3 b4 b5 b6 b7
      s rest h hp
  · simpa using ObjectRef.from_file_fmt2_readsTo b0 b1 b2 b3 b4 b5 b6 b7
      s rest h hp
  · simp [ObjectRef.dump_out]
  · have := ObjectRef.from_file_dump_out_readsTo r hwf s rest h hp
    simpa [ObjectRef.dump_out] using this

/-- Witness for C4 at a concrete 8-byte wire string and a concrete
reference. -/
theorem C4_object_ref_eight_bytes_witness :
    ObjectRef.from_file 1 ⟨[1, 0, 0, 0, 2, 0, 9, 9], 0⟩ =
      .ok (⟨toI16 (leVal [2, 0]), leVal [1, 0, 0, 0]⟩,
        (⟨[1, 0, 0, 0, 2, 0, 9, 9], 0⟩ : VmadStream).advance 8) ∧
    (ObjectRef.dump_out ⟨2, 1⟩).length = 8 ∧
    ObjectRef.from_file 2
      ⟨ObjectRef.dump_out ⟨2, 1⟩ ++ [7], 0⟩ =
      .ok (⟨2, 1⟩, (⟨ObjectRef.dump_out ⟨2, 1⟩ ++ [7], 0⟩ :
        VmadStream).advance 8) :=
  ⟨(C4_object_ref_eight_bytes.1 ⟨[1, 0, 0, 0, 2, 0, 9, 9], 0⟩
      1 0 0 0 2 0 9 9 [] (by decide) (by decide)).1,
   C4_object_ref_eight_bytes.2.1 ⟨2, 1⟩,
   C4_object_ref_eight_bytes.2.2 ⟨2, 1⟩ _ [7] (by decide) (by decide)
     (by decide)⟩

/-! ## Property flags byte by header version (C8) -/

/-- C8: for every property decode, a governing version ≥ 4 reads an
explicit flags byte after the type tag, and a version ≤ 3 reads no flags
byte and sets the flags unconditionally to 1 (the `edited` flag): the
source decoder coincides with the corresponding spec-side decoder. -/
theorem C8_property_flags_by_version (vmad_version obj_format : Int) :
    (vmad_version ≥ 4 →
      MelVmad.Property.load_data vmad_version obj_format =
        MelVmad.Property.load_data_spec_new obj_format) ∧
    (vmad_version ≤ 3 →
      MelVmad.Property.load_data vmad_version obj_format =
        MelVmad.Property.load_data_spec_old obj_format) := by
  constructor
  · intro h
    simp only [MelVmad.Property.load_data, MelVmad.Property.load_data_spec_new,
      if_pos h]
  · intro h
    have h4 : ¬vmad_version ≥ 4 := by omega
    simp only [MelVmad.Property.load_data, MelVmad.Property.load_data_spec_old,
      if_neg h4]
    rfl

/-- Witness for C8 at versions 5 and 3. -/
theorem C8_property_flags_by_version_witness :
    MelVmad.Property.load_data 5 2 = MelVmad.Property.load_data_spec_new 2 ∧
    MelVmad.Property.load_data 3 2 = MelVmad.Property.load_data_spec_old 2 :=
  ⟨(C8_property_flags_by_version 5 2).1 (by decide),
   (C8_property_flags_by_version 3 2).2 (by decide)⟩

/-! ## Header validation (C3) -/

@[simp] theorem drop_w8_append (x : Nat) (l : List Nat) :
    (w8 x ++ l).drop 1 = l := rfl

@[simp] theorem drop_wi8_append (x : Int) (l : List Nat) :
    (wi8 x ++ l).drop 1 = l := rfl

@[simp] theorem drop_w16_append (x : Nat) (l : List Nat) :
    (w16 x ++ l).drop 2 = l := rfl

@[simp] theorem drop_wi16_append (x : Int) (l : List Nat) :
    (wi16 x ++ l).drop 2 = l := rfl

@[simp] theorem drop_w32_append (x : Nat) (l : List Nat) :
    (w32 x ++ l).drop 4 = l := rfl

@[simp] theorem drop_wi32_append (x : Int) (l : List Nat) :
    (wi32 x ++ l).drop 4 = l := rfl

/-- Peel one `ReadsTo`-characterized computation off a bind, carrying
the remaining-bytes facts forward. -/
theorem bind_readsTo_step {m : VmadM α} {enc : List Nat} {a : α}
    (hm : ReadsTo m enc a) (k : α → VmadM β) (s : VmadStream)
    (rest : List Nat) (h : s.data.drop s.pos = enc ++ rest)
    (hp : s.pos ≤ s.data.length) :
    (m >>= k) s = k a (s.advance enc.length) ∧
    (s.advance enc.length).data.drop (s.advance enc.length).pos = rest ∧
    (s.advance enc.length).pos ≤ (s.advance enc.length).data.length := by
  have hlen : s.data.length - s.pos = enc.length + rest.length := by
    have := congrArg List.length h
    simp only [List.length_drop, List.length_append] at this
    omega
  refine ⟨?_, ?_, ?_⟩
  · rw [VmadM.bind_apply, hm s rest h hp]
  · simp only [VmadStream.advance_data, VmadStream.advance_pos]
    rw [← List.drop_drop, h]
    simp
  · simp only [VmadStream.advance_data, VmadStream.advance_pos]
    omega

/-- C3: decoding the VMAD header fails hard (producing no tree at all)
with `UnrecognizedVersion` whenever the version is outside 1–5 and with
`UnrecognizedObjectFormat` whenever the version is in range but the
object format is neither 1 nor 2; and every version 1–5 with a valid
format and zero scripts decodes to an empty script list with no special
data, for every owning record type. -/
theorem C3_header_validation :
    (∀ (rt : RecType) (size_ : Nat) (v f : Int) (c : Nat) (rest : List Nat),
      i16Ok v → i16Ok f → c < 65536 → (v < 1 ∨ v > 5) →
      MelVmad.loadData rt size_ ⟨wi16 v ++ wi16 f ++ w16 c ++ rest, 0⟩ =
        .error (.unrecognizedVersion v)) ∧
    (∀ (rt : RecType) (size_ : Nat) (v f : Int) (c : Nat) (rest : List Nat),
      i16Ok v → i16Ok f → c < 65536 → 1 ≤ v → v ≤ 5 → f ≠ 1 → f ≠ 2 →
      MelVmad.loadData rt size_ ⟨wi16 v ++ wi16 f ++ w16 c ++ rest, 0⟩ =
        .error (.unrecognizedObjectFormat f)) ∧
    (∀ (rt : RecType) (v f : Int), 1 ≤ v → v ≤ 5 → (f = 1 ∨ f = 2) →
      MelVmad.loadData rt 6 ⟨wi16 v ++ wi16 f ++ w16 0, 0⟩ =
        .ok (⟨[], none⟩,
          (⟨wi16 v ++ wi16 f ++ w16 0, 0⟩ : VmadStream).advance 6)) := by
  refine ⟨?_, ?_, ?_⟩
  · intro rt size_ v f c rest hv hf hc hrange
    simp only [MelVmad.loadData]
    obtain ⟨e1, hr1, hp1⟩ := bind_readsTo_step (readI16_readsTo v hv) _
      ⟨wi16 v ++ wi16 f ++ w16 c ++ rest, 0⟩ (wi16 f ++ (w16 c ++ rest))
      (by simp) (by simp)
    rw [e1]
    obtain ⟨e2, hr2, hp2⟩ := bind_readsTo_step (readI16_readsTo f hf) _
      _ (w16 c ++ rest) hr1 hp1
    rw [e2]
    obtain ⟨e3, hr3, hp3⟩ := bind_readsTo_step (readU16_readsTo c hc) _
      _ rest hr2 hp2
    rw [e3]
    rw [if_pos hrange]
    rfl
  · intro rt size_ v f c rest hv hf hc hv1 hv5 hf1 hf2
    simp only [MelVmad.loadData]
    obtain ⟨e1, hr1, hp1⟩ := bind_readsTo_step (readI16_readsTo v hv) _
      ⟨wi16 v ++ wi16 f ++ w16 c ++ rest, 0⟩ (wi16 f ++ (w16 c ++ rest))
      (by simp) (by simp)
    rw [e1]
    obtain ⟨e2, hr2, hp2⟩ := bind_readsTo_step (readI16_readsTo f hf) _
      _ (w16 c ++ rest) hr1 hp1
    rw [e2]
    obtain ⟨e3, hr3, hp3⟩ := bind_readsTo_step (readU16_readsTo c hc) _
      _ rest hr2 hp2
    rw [e3]
    rw [if_neg (by omega), if_pos ⟨hf1, hf2⟩]
    rfl
  · intro rt v f hv1 hv5 hf12
    have hv : i16Ok v := by simp only [i16Ok]; simp; omega
    have hf : i16Ok f := by
      simp only [i16Ok]; simp; rcases hf12 with h | h <;> simp [h]
    simp only [MelVmad.loadData]
    obtain ⟨e1, hr1, hp1⟩ := bind_readsTo_step (readI16_readsTo v hv) _
      ⟨wi16 v ++ wi16 f ++ w16 0, 0⟩ (wi16 f ++ w16 0)
      (by simp) (by simp)
    rw [e1]
    obtain ⟨e2, hr2, hp2⟩ := bind_readsTo_step (readI16_readsTo f hf) _
      _ (w16 0) hr1 hp1
    rw [e2]
    obtain ⟨e3, hr3, hp3⟩ := bind_readsTo_step (readU16_readsTo 0
      (by norm_num)) _ _ [] hr2 hp2
    rw [e3]
    rw [if_neg (by omega),
      if_neg (by rcases hf12 with h | h <;> simp [h])]
    rw [VmadM.bind_apply]
    simp only [loadList, VmadM.pure_apply]
    simp only [MelVmad.loadDataTail, VmadStream.advance_pos,
      VmadStream.advance_advance]
    rw [if_neg (by simp)]
    simp [VmadStream.advance]

/-- Witness for C3: version 0 and version 6 fail, a bad object format
fails, and versions 1–5 with a valid format and no scripts succeed. -/
theorem C3_header_validation_witness :
    MelVmad.loadData .QUST 6 ⟨wi16 0 ++ wi16 2 ++ w16 0, 0⟩ =
      .error (.unrecognizedVersion 0) ∧
    MelVmad.loadData .QUST 6 ⟨wi16 6 ++ wi16 2 ++ w16 0, 0⟩ =
      .error (.unrecognizedVersion 6) ∧
    MelVmad.loadData .QUST 6 ⟨wi16 5 ++ wi16 3 ++ w16 0, 0⟩ =
      .error (.unrecognizedObjectFormat 3) ∧
    MelVmad.loadData .INFO 6 ⟨wi16 1 ++ wi16 1 ++ w16 0, 0⟩ =
      .ok (⟨[], none⟩,
        (⟨wi16 1 ++ wi16 1 ++ w16 0, 0⟩ : VmadStream).advance 6) ∧
    MelVmad.loadData .other 6 ⟨wi16 5 ++ wi16 2 ++ w16 0, 0⟩ =
      .ok (⟨[], none⟩,
        (⟨wi16 5 ++ wi16 2 ++ w16 0, 0⟩ : VmadStream).advance 6) :=
  ⟨C3_header_validation.1 .QUST 6 0 2 0 [] (by decide) (by decide)
      (by decide) (by decide),
   C3_header_validation.1 .QUST 6 6 2 0 [] (by decide) (by decide)
      (by decide) (by decide),
   C3_header_validation.2.1 .QUST 6 5 3 0 [] (by decide) (by decide)
      (by decide) (by decide) (by decide) (by decide) (by decide),
   C3_header_validation.2.2 .INFO 1 1 (by decide) (by decide) (by decide),
   C3_header_validation.2.2 .other 5 2 (by decide) (by decide) (by decide)⟩

/-! ## Property type dispatch (C1) -/

/-- C1 (amended: the valid tag set has 11 values, not 14): the property
payload decode dispatches on the type tag against the fixed set
{0,1,2,3,4,5,11,12,13,14,15}; a tag outside it (e.g. 9) fails hard with
`UnrecognizedPropertyType` and no fallback; exactly 11 of the 256
possible tag bytes are recognized; and for each of the 11 valid tags,
decode-then-encode of a minimal synthetic payload of that type
reproduces the original bytes exactly. -/
theorem C1_property_type_dispatch :
    (∀ (vmad_version obj_format : Int) (t fl : Nat) (name rest : List Nat),
      vmad_version ≥ 4 → str16Ok name → t < 256 → fl < 256 →
      MelVmad.validPropertyType t = false →
      MelVmad.Property.load_data vmad_version obj_format
        ⟨dump_vmad_str16 name ++ w8 t ++ w8 fl ++ rest, 0⟩ =
        .error (.unrecognizedPropertyType t)) ∧
    MelVmad.Property.load_data 5 2 ⟨[0, 0, 9, 1], 0⟩ =
      .error (.unrecognizedPropertyType 9) ∧
    ((List.range 256).filter property_tag_recognized).length = 11 ∧
    (property_roundtrip [0, 0, 0, 1] ∧
     property_roundtrip [0, 0, 1, 1, 0, 0, 2, 0, 1, 0, 0, 0] ∧
     property_roundtrip [0, 0, 2, 1, 1, 0, 65] ∧
     property_roundtrip [0, 0, 3, 1, 254, 255, 255, 255] ∧
     property_roundtrip [0, 0, 4, 1, 0, 0, 128, 63] ∧
     property_roundtrip [0, 0, 5, 1, 1] ∧
     property_roundtrip [0, 0, 11, 1, 1, 0, 0, 0, 0, 0, 2, 0, 1, 0, 0, 0] ∧
     property_roundtrip [0, 0, 12, 1, 1, 0, 0, 0, 1, 0, 65] ∧
     property_roundtrip [0, 0, 13, 1, 1, 0, 0, 0, 254, 255, 255, 255] ∧
     property_roundtrip [0, 0, 14, 1, 1, 0, 0, 0, 0, 0, 128, 63] ∧
     property_roundtrip [0, 0, 15, 1, 1, 0, 0, 0, 1]) := by
  refine ⟨?_, by decide, by decide, by decide⟩
  intro vmad_version obj_format t fl name rest hv4 hname ht hfl hvalid
  simp only [MelVmad.validPropertyType, decide_eq_false_iff_not] at hvalid
  push_neg at hvalid
  obtain ⟨h0, h1, h2, h3, h4, h5, h11, h12, h13, h14, h15⟩ := hvalid
  simp only [MelVmad.Property.load_data, if_pos hv4]
  obtain ⟨e1, hr1, hp1⟩ := bind_readsTo_step
    (read_vmad_str16_readsTo name hname) _
    ⟨dump_vmad_str16 name ++ w8 t ++ w8 fl ++ rest, 0⟩
    (w8 t ++ (w8 fl ++ rest)) (by simp) (by simp)
  rw [e1]
  obtain ⟨e2, hr2, hp2⟩ := bind_readsTo_step (readU8_readsTo t ht) _
    _ (w8 fl ++ rest) hr1 hp1
  rw [e2]
  obtain ⟨e3, hr3, hp3⟩ := bind_readsTo_step (readU8_readsTo fl hfl) _
    _ rest hr2 hp2
  rw [e3]
  simp only [MelVmad.Property.load_payload, if_neg h0, if_neg h1, if_neg h2,
    if_neg h3, if_neg h4, if_neg h5, if_neg h11, if_neg h12, if_neg h13,
    if_neg h14, if_neg h15]
  rfl

/-- Counterexample to C1 as stated: the set of recognized property type
tags has 11 elements, not 14. -/
theorem C1_property_type_dispatch_counterexample :
    ((List.range 256).filter property_tag_recognized).length = 11 ∧
    ¬((List.range 256).filter property_tag_recognized).length = 14 :=
  ⟨by decide, by decide⟩

/-- Witness for C1 at the concrete unrecognized tag 7. -/
theorem C1_property_type_dispatch_witness :
    MelVmad.Property.load_data 5 2
      ⟨dump_vmad_str16 [] ++ w8 7 ++ w8 1 ++ [], 0⟩ =
      .error (.unrecognizedPropertyType 7) :=
  C1_property_type_dispatch.1 5 2 7 1 [] [] (by decide) (by decide)
    (by decide) (by decide) (by decide)

/-! ## Alias decode (C2) -/

theorem seekRel_eight (s : VmadStream) :
    seekRel 8 s = .ok ((), s.advance 8) := by
  have h : ((s.pos : Int) + 8).toNat = s.pos + 8 := by omega
  rw [seekRel, if_pos (by omega)]
  simp [VmadStream.advance, h]

theorem seekRel_six (s : VmadStream) :
    seekRel 6 s = .ok ((), s.advance 6) := by
  have h : ((s.pos : Int) + 6).toNat = s.pos + 6 := by omega
  rw [seekRel, if_pos (by omega)]
  simp [VmadStream.advance, h]

theorem seekRel_neg14 (s : VmadStream) (hp : 14 ≤ s.pos) :
    seekRel (-14) s = .ok ((), ⟨s.data, s.pos - 14⟩) := by
  have h : ((s.pos : Int) + -14).toNat = s.pos - 14 := by omega
  rw [seekRel, if_pos (by omega)]
  simp [h]

/-- Closed form of `ObjectRef.from_file`: 8 bytes are consumed whenever
they are available, with the field layout given by the format. -/
theorem ObjectRef.from_file_eq (f : Int) (s : VmadStream) :
    ObjectRef.from_file f s =
      if s.pos + 8 ≤ s.data.length then
        .ok ((if f = 1 then
            (⟨toI16 (leVal ((s.data.drop (s.pos + 4)).take 2)),
              leVal ((s.data.drop s.pos).take 4)⟩ : ObjectRef)
          else
            ⟨toI16 (leVal ((s.data.drop (s.pos + 2)).take 2)),
              leVal ((s.data.drop (s.pos + 4)).take 4)⟩), s.advance 8)
      else .error .truncatedData := by
  by_cases hf : f = 1 <;> by_cases h8 : s.pos + 8 ≤ s.data.length
  · have h4 : s.pos + 4 ≤ s.data.length := by omega
    have h6 : s.pos + 4 + 2 ≤ s.data.length := by omega
    have h8' : s.pos + 6 + 2 ≤ s.data.length := by omega
    simp [ObjectRef.from_file, hf, VmadM.bind_apply, readU32_eq, readI16_eq,
      readU16_eq, VmadM.pure_apply, h4, h6, h8', h8]
  · simp only [ObjectRef.from_file, hf, if_pos, VmadM.bind_apply, readU32_eq,
      readI16_eq, readU16_eq, VmadM.pure_apply, if_neg h8]
    by_cases h4 : s.pos + 4 ≤ s.data.length
    · have h6 : ¬(s.pos + 4 + 2 ≤ s.data.length) ∨
        ¬(s.pos + 6 + 2 ≤ s.data.length) := by omega
      by_cases h6' : s.pos + 4 + 2 ≤ s.data.length
      · simp [h4, h6', VmadM.bind_apply, readI16_eq, readU16_eq,
          show ¬(s.pos + 6 + 2 ≤ s.data.length) by omega]
      · simp [h4, h6', VmadM.bind_apply, readI16_eq]
    · simp [h4]
  · have h2 : s.pos + 2 ≤ s.data.length := by omega
    have h4 : s.pos + 2 + 2 ≤ s.data.length := by omega
    have h8' : s.pos + 4 + 4 ≤ s.data.length := by omega
    simp [ObjectRef.from_file, hf, VmadM.bind_apply, readU32_eq, readI16_eq,
      readU16_eq, VmadM.pure_apply, h2, h4, h8', h8]
  · simp only [ObjectRef.from_file, hf, ite_false, VmadM.bind_apply,
      readU16_eq, if_neg h8]
    by_cases h2 : s.pos + 2 ≤ s.data.length
    · by_cases h4 : s.pos + 2 + 2 ≤ s.data.length
      · simp [h2, h4, VmadM.bind_apply, readI16_eq, readU32_eq,
          show ¬(s.pos + 4 + 4 ≤ s.data.length) by omega]
      · simp [h2, h4, VmadM.bind_apply, readI16_eq]
    · simp [h2]

/-- C2: alias decode is exactly the two-stage decode the specification
describes: the outer version/format arguments are irrelevant, and the
decode equals the spec-side decoder that peeks the alias's own header
past the 8-byte object reference, decodes the object reference using the
alias's own object format, and reads the alias's scripts under the
alias's own version and format.  Concretely, an alias whose embedded
header declares format 1 under an outer format-2 header decodes its
object reference with the format-1 layout, which differs from the
format-2 reading of the same bytes. -/
theorem C2_alias_two_stage_decode :
    (∀ v1 f1 v2 f2 : Int,
      MelVmad.Alias.load_data v1 f1 = MelVmad.Alias.load_data v2 f2) ∧
    (∀ vmad_version obj_format : Int,
      MelVmad.Alias.load_data vmad_version obj_format =
        MelVmad.Alias.load_data_spec) ∧
    (MelVmad.Alias.load_data 5 2
        ⟨[1, 0, 0, 0, 2, 0, 0, 0, 5, 0, 1, 0, 0, 0], 0⟩ =
      .ok (⟨⟨2, 1⟩, 5, 1, 0, []⟩,
        ⟨[1, 0, 0, 0, 2, 0, 0, 0, 5, 0, 1, 0, 0, 0], 14⟩) ∧
     ObjectRef.from_file 2
        ⟨[1, 0, 0, 0, 2, 0, 0, 0, 5, 0, 1, 0, 0, 0], 0⟩ =
      .ok (⟨0, 2⟩,
        ⟨[1, 0, 0, 0, 2, 0, 0, 0, 5, 0, 1, 0, 0, 0], 8⟩) ∧
     (⟨2, 1⟩ : ObjectRef) ≠ ⟨0, 2⟩) := by
  refine ⟨fun v1 f1 v2 f2 => rfl, ?_, by decide, by decide, by decide⟩
  intro vmad_version obj_format
  funext s0
  simp only [MelVmad.Alias.load_data, MelVmad.Alias.load_data_spec,
    VmadM.bind_apply, VmadM.pure_apply, seekRel_eight]
  simp only [VmadStream.advance]
  simp only [readI16_eq, readU16_eq]
  by_cases h10 : s0.pos + 8 + 2 ≤ s0.data.length
  · simp only [if_pos h10, VmadStream.advance]
    by_cases h12 : s0.pos + 8 + 2 + 2 ≤ s0.data.length
    · simp only [if_pos h12, VmadStream.advance]
      by_cases h14 : s0.pos + 8 + 2 + 2 + 2 ≤ s0.data.length
      · simp only [if_pos h14, VmadStream.advance]
        rw [seekRel_neg14 _ (by dsimp only; omega)]
        have hn : s0.pos + 8 + 2 + 2 + 2 - 14 = s0.pos := by omega
        rw [hn]
        simp only [ObjectRef.from_file_eq]
        have h8 : s0.pos + 8 ≤ s0.data.length := by omega
        simp only [if_pos h8, VmadStream.advance]
        simp only [seekRel_six, VmadStream.advance]
      · simp only [if_neg h14]
    · simp only [if_neg h12]
  · simp only [if_neg h10]

/-! ## Encode constants and counts (C5, C6, C10) -/

@[simp] theorem ok_bind (a : α) (f : α → Except VmadError β) :
    (Except.ok a >>= f) = f a := rfl

@[simp] theorem error_bind (e : VmadError) (f : α → Except VmadError β) :
    ((Except.error e : Except VmadError α) >>= f) = Except.error e := rfl

/-- C5: the outer header is always dumped as version 5, object format 2,
and every alias dump embeds version 5, object format 2 after its 8-byte
object reference, regardless of the version/format values stored in the
tree. -/
theorem C5_dump_writes_v5_fmt2 :
    (∀ (rt : RecType) (vmad : MelVmad.VmadData)
      (res : List Nat × MelVmad.VmadData),
      MelVmad.dumpData rt vmad = .ok res →
      ∃ tail, res.1 = wi16 5 ++ wi16 2 ++ tail) ∧
    (∀ (a : MelVmad.Alias) (res : List Nat × MelVmad.Alias),
      MelVmad.Alias.dump_data a = .ok res →
      ∃ tail,
        res.1 = ObjectRef.dump_out a.alias_ref_obj ++ wi16 5 ++ wi16 2 ++
          tail) := by
  constructor
  · intro rt vmad res h
    cases hm : vmad.scripts.mapM MelVmad.Script.dump_data with
    | error e =>
      simp only [MelVmad.dumpData, hm, error_bind] at h
      exact Except.noConfusion h
    | ok sres =>
      simp only [MelVmad.dumpData, hm, ok_bind] at h
      split at h
      · cases hsd : MelVmad.specialHandlerDump rt ‹MelVmad.SpecialData› with
        | error e =>
          rw [hsd] at h
          simp only [error_bind] at h
          exact Except.noConfusion h
        | ok sdres =>
          rw [hsd] at h
          simp only [ok_bind, Except.ok.injEq] at h
          exact ⟨w16 vmad.scripts.length ++
            ((List.map Prod.fst sres).flatten ++ sdres.1),
            by rw [← h]; simp [List.append_assoc]⟩
      · simp only [Except.ok.injEq] at h
        exact ⟨w16 vmad.scripts.length ++ (List.map Prod.fst sres).flatten,
          by rw [← h]; simp [List.append_assoc]⟩
  · intro a res h
    cases hm : a.scripts.mapM MelVmad.Script.dump_data with
    | error e =>
      simp only [MelVmad.Alias.dump_data, hm, error_bind] at h
      exact Except.noConfusion h
    | ok sres =>
      simp only [MelVmad.Alias.dump_data, hm, ok_bind,
        Except.ok.injEq] at h
      exact ⟨w16 a.scripts.length ++ (List.map Prod.fst sres).flatten,
        by rw [← h]; simp [List.append_assoc]⟩

/-- Witness for C5 on a one-script tree and a one-script alias. -/
theorem C5_dump_writes_v5_fmt2_witness :
    (∃ tail, ([5, 0, 2, 0, 1, 0, 0, 0, 0, 0, 0] : List Nat) =
      wi16 5 ++ wi16 2 ++ tail) ∧
    (∃ tail, ([0, 0, 0, 0, 0, 0, 0, 0, 5, 0, 2, 0, 0, 0] : List Nat) =
      ObjectRef.dump_out (⟨0, 0⟩ : ObjectRef) ++ wi16 5 ++ wi16 2 ++ tail) :=
  ⟨C5_dump_writes_v5_fmt2.1 .other ⟨[⟨[], 0, 3, []⟩], none⟩
      ([5, 0, 2, 0, 1, 0, 0, 0, 0, 0, 0], ⟨[⟨[], 0, 0, []⟩], none⟩)
      (by decide),
   C5_dump_writes_v5_fmt2.2 ⟨⟨0, 0⟩, 4, 1, 9, []⟩
      ([0, 0, 0, 0, 0, 0, 0, 0, 5, 0, 2, 0, 0, 0], ⟨⟨0, 0⟩, 5, 2, 0, []⟩)
      (by decide)⟩

/-- C6: every count field written by encode equals the current length of
the corresponding in-memory list — the outer script count, a script's
property count, an alias's script count, the PERK/QUST fragment counts,
the QUST alias count, the SCEN phase-fragment count and the array-typed
property payload counts — and the containers with a stored count
attribute dump identically whatever value that attribute holds. -/
theorem C6_counts_from_live_lists :
    (∀ (rt : RecType) (vmad : MelVmad.VmadData)
      (res : List Nat × MelVmad.VmadData),
      MelVmad.dumpData rt vmad = .ok res →
      ∃ tail, res.1 = wi16 5 ++ wi16 2 ++ w16 vmad.scripts.length ++ tail) ∧
    (∀ (s : MelVmad.Script) (res : List Nat × MelVmad.Script),
      MelVmad.Script.dump_data s = .ok res →
      ∃ tail, res.1 = dump_vmad_str16 s.script_name ++ w8 s.script_flags ++
        w16 s.properties.length ++ tail) ∧
    (∀ (s : MelVmad.Script) (n : Nat),
      MelVmad.Script.dump_data { s with property_count := n } =
        MelVmad.Script.dump_data s) ∧
    (∀ (a : MelVmad.Alias) (res : List Nat × MelVmad.Alias),
      MelVmad.Alias.dump_data a = .ok res →
      ∃ tail, res.1 = ObjectRef.dump_out a.alias_ref_obj ++ wi16 5 ++
        wi16 2 ++ w16 a.scripts.length ++ tail) ∧
    (∀ (a : MelVmad.Alias) (n : Nat),
      MelVmad.Alias.dump_data { a with script_count := n } =
        MelVmad.Alias.dump_data a) ∧
    (∀ r : MelVmad.VmadHandlerPERKData,
      (MelVmad.VmadHandlerPERK.dump_data r).1 =
        wi8 r.extra_bind_data_version ++ dump_vmad_str16 r.file_name ++
        w16 r.fragments.length ++
        (r.fragments.map MelVmad.FragmentPERK.dump_data).flatten) ∧
    (∀ (r : MelVmad.VmadHandlerPERKData) (n : Nat),
      MelVmad.VmadHandlerPERK.dump_data { r with fragment_count := n } =
        MelVmad.VmadHandlerPERK.dump_data r) ∧
    (∀ (r : MelVmad.VmadHandlerQUSTData)
      (res : List Nat × MelVmad.VmadHandlerQUSTData),
      MelVmad.VmadHandlerQUST.dump_data r = .ok res →
      ∃ tail, res.1 = wi8 r.extra_bind_data_version ++
        w16 r.fragments.length ++ dump_vmad_str16 r.file_name ++
        (r.fragments.map MelVmad.FragmentQUST.dump_data).flatten ++
        w16 r.aliases.length ++ tail) ∧
    (∀ (r : MelVmad.VmadHandlerQUSTData) (n : Nat),
      MelVmad.VmadHandlerQUST.dump_data { r with fragment_count := n } =
        MelVmad.VmadHandlerQUST.dump_data r) ∧
    (∀ r : MelVmad.VmadHandlerSCENData,
      ∃ pre, (MelVmad.VmadHandlerSCEN.dump_data r).1 =
        pre ++ w16 r.phase_fragments.length ++
        (r.phase_fragments.map MelVmad.FragmentSCENPhase.dump_data).flatten) ∧
    (∀ rs : List ObjectRef,
      ObjectRef.dump_array rs =
        w32 rs.length ++ (rs.map ObjectRef.dump_out).flatten) ∧
    (∀ (p : MelVmad.Property) (ss : List (List Nat)),
      p.prop_type = 12 → p.prop_data = .strArray ss →
      MelVmad.Property.dump_data p = .ok (dump_vmad_str16 p.prop_name ++
        w8 p.prop_type ++ w8 p.prop_flags ++ w32 ss.length ++
        (ss.map dump_vmad_str16).flatten)) ∧
    (∀ (p : MelVmad.Property) (vs : List Int),
      p.prop_type = 13 → p.prop_data = .i32Array vs →
      MelVmad.Property.dump_data p = .ok (dump_vmad_str16 p.prop_name ++
        w8 p.prop_type ++ w8 p.prop_flags ++ w32 vs.length ++
        (vs.map wi32).flatten)) ∧
    (∀ (p : MelVmad.Property) (bs : List Nat),
      p.prop_type = 14 → p.prop_data = .fltArray bs →
      MelVmad.Property.dump_data p = .ok (dump_vmad_str16 p.prop_name ++
        w8 p.prop_type ++ w8 p.prop_flags ++ w32 bs.length ++
        (bs.map w32).flatten)) ∧
    (∀ (p : MelVmad.Property) (bs : List Bool),
      p.prop_type = 15 → p.prop_data = .boolArray bs →
      MelVmad.Property.dump_data p = .ok (dump_vmad_str16 p.prop_name ++
        w8 p.prop_type ++ w8 p.prop_flags ++ w32 bs.length ++
        (bs.map (fun b => w8 (if b then 1 else 0))).flatten)) := by
  refine ⟨?_, ?_, fun s n => rfl, ?_, fun a n => rfl, fun r => rfl,
    fun r n => rfl, ?_, fun r n => rfl, ?_, fun rs => rfl, ?_, ?_, ?_, ?_⟩
  · intro rt vmad res h
    cases hm : vmad.scripts.mapM MelVmad.Script.dump_data with
    | error e =>
      simp only [MelVmad.dumpData, hm, error_bind] at h
      exact Except.noConfusion h
    | ok sres =>
      simp only [MelVmad.dumpData, hm, ok_bind] at h
      split at h
      · cases hsd : MelVmad.specialHandlerDump rt ‹MelVmad.SpecialData› with
        | error e =>
          rw [hsd] at h
          simp only [error_bind] at h
          exact Except.noConfusion h
        | ok sdres =>
          rw [hsd] at h
          simp only [ok_bind, Except.ok.injEq] at h
          exact ⟨(List.map Prod.fst sres).flatten ++ sdres.1,
            by simp [← h, List.append_assoc]⟩
      · simp only [Except.ok.injEq] at h
        exact ⟨(List.map Prod.fst sres).flatten,
          by simp [← h, List.append_assoc]⟩
  · intro s res h
    cases hm : s.properties.mapM MelVmad.Property.dump_data with
    | error e =>
      simp only [MelVmad.Script.dump_data, hm, error_bind] at h
      exact Except.noConfusion h
    | ok pd =>
      simp only [MelVmad.Script.dump_data, hm, ok_bind,
        Except.ok.injEq] at h
      exact ⟨pd.flatten, by simp [← h, List.append_assoc]⟩
  · intro a res h
    cases hm : a.scripts.mapM MelVmad.Script.dump_data with
    | error e =>
      simp only [MelVmad.Alias.dump_data, hm, error_bind] at h
      exact Except.noConfusion h
    | ok sres =>
      simp only [MelVmad.Alias.dump_data, hm, ok_bind,
        Except.ok.injEq] at h
      exact ⟨(List.map Prod.fst sres).flatten,
        by simp [← h, List.append_assoc]⟩
  · intro r res h
    cases hm : r.aliases.mapM MelVmad.Alias.dump_data with
    | error e =>
      simp only [MelVmad.VmadHandlerQUST.dump_data, hm, error_bind] at h
      exact Except.noConfusion h
    | ok ares =>
      simp only [MelVmad.VmadHandlerQUST.dump_data, hm, ok_bind,
        Except.ok.injEq] at h
      exact ⟨(List.map Prod.fst ares).flatten,
        by simp [← h, List.append_assoc]⟩
  · intro r
    exact ⟨wi8 r.extra_bind_data_version ++ w8 (MelVmad.flagSetBit
      (MelVmad.flagSetBit r.fragment_flags 0 r.begin_frag.isSome) 1
      r.end_frag.isSome) ++ dump_vmad_str16 r.file_name ++
      ((r.begin_frag.toList ++ r.end_frag.toList).map
        MelVmad.FragmentBasic.dump_data).flatten,
      by simp [MelVmad.VmadHandlerSCEN.dump_data, List.append_assoc]⟩
  · intro p ss ht hd
    simp [MelVmad.Property.dump_data, ht, hd, List.append_assoc]
  · intro p vs ht hd
    simp [MelVmad.Property.dump_data, ht, hd, List.append_assoc]
  · intro p bs ht hd
    simp [MelVmad.Property.dump_data, ht, hd, List.append_assoc]
  · intro p bs ht hd
    simp [MelVmad.Property.dump_data, ht, hd, List.append_assoc]

/-- Witness for C6 at concrete components whose stored counts disagree
with their list lengths. -/
theorem C6_counts_from_live_lists_witness :
    (∃ tail, ([5, 0, 2, 0, 0, 0] : List Nat) =
      wi16 5 ++ wi16 2 ++ w16 0 ++ tail) ∧
    (∃ tail, ([0, 0, 0, 0, 0] : List Nat) =
      dump_vmad_str16 [] ++ w8 0 ++ w16 0 ++ tail) ∧
    (∃ tail, ([0, 0, 0, 0, 0, 0, 0, 0, 5, 0, 2, 0, 0, 0] : List Nat) =
      ObjectRef.dump_out (⟨0, 0⟩ : ObjectRef) ++ wi16 5 ++ wi16 2 ++
        w16 0 ++ tail) ∧
    (∃ tail, ([0, 0, 0, 0, 0, 0, 0] : List Nat) =
      wi8 0 ++ w16 0 ++ dump_vmad_str16 [] ++ [] ++ w16 0 ++ tail) ∧
    MelVmad.Property.dump_data ⟨[], 12, 1, .strArray []⟩ =
      .ok (dump_vmad_str16 [] ++ w8 12 ++ w8 1 ++ w32 0 ++ []) ∧
    MelVmad.Property.dump_data ⟨[], 13, 1, .i32Array []⟩ =
      .ok (dump_vmad_str16 [] ++ w8 13 ++ w8 1 ++ w32 0 ++ []) ∧
    MelVmad.Property.dump_data ⟨[], 14, 1, .fltArray []⟩ =
      .ok (dump_vmad_str16 [] ++ w8 14 ++ w8 1 ++ w32 0 ++ []) ∧
    MelVmad.Property.dump_data ⟨[], 15, 1, .boolArray []⟩ =
      .ok (dump_vmad_str16 [] ++ w8 15 ++ w8 1 ++ w32 0 ++ []) :=
  ⟨C6_counts_from_live_lists.1 .other ⟨[], none⟩
      ([5, 0, 2, 0, 0, 0], ⟨[], none⟩) (by decide),
   C6_counts_from_live_lists.2.1 ⟨[], 0, 7, []⟩
      ([0, 0, 0, 0, 0], ⟨[], 0, 0, []⟩) (by decide),
   C6_counts_from_live_lists.2.2.2.1 ⟨⟨0, 0⟩, 4, 1, 9, []⟩
      ([0, 0, 0, 0, 0, 0, 0, 0, 5, 0, 2, 0, 0, 0], ⟨⟨0, 0⟩, 5, 2, 0, []⟩)
      (by decide),
   C6_counts_from_live_lists.2.2.2.2.2.2.2.1 ⟨0, 5, [], [], []⟩
      ([0, 0, 0, 0, 0, 0, 0], ⟨0, 0, [], [], []⟩) (by decide),
   C6_counts_from_live_lists.2.2.2.2.2.2.2.2.2.2.2.1 ⟨[], 12, 1, .strArray []⟩
      [] (by decide) (by decide),
   C6_counts_from_live_lists.2.2.2.2.2.2.2.2.2.2.2.2.1 ⟨[], 13, 1, .i32Array []⟩
      [] (by decide) (by decide),
   C6_counts_from_live_lists.2.2.2.2.2.2.2.2.2.2.2.2.2.1 ⟨[], 14, 1, .fltArray []⟩
      [] (by decide) (by decide),
   C6_counts_from_live_lists.2.2.2.2.2.2.2.2.2.2.2.2.2.2 ⟨[], 15, 1, .boolArray []⟩
      [] (by decide) (by decide)⟩

theorem flagBit_flagSetBit_0 (v : Nat) (b : Bool) :
    MelVmad.flagBit (MelVmad.flagSetBit v 0 b) 0 = if b then 1 else 0 := by
  simp only [MelVmad.flagBit, MelVmad.flagSetBit, pow_zero, mul_one,
    Nat.div_one]
  cases b <;> simp <;> omega

theorem flagBit_flagSetBit_1 (v : Nat) (b : Bool) :
    MelVmad.flagBit (MelVmad.flagSetBit v 1 b) 1 = if b then 1 else 0 := by
  simp only [MelVmad.flagBit, MelVmad.flagSetBit, pow_one]
  cases b <;> simp <;> omega

theorem flagBit_flagSetBit_2 (v : Nat) (b : Bool) :
    MelVmad.flagBit (MelVmad.flagSetBit v 2 b) 2 = if b then 1 else 0 := by
  simp only [MelVmad.flagBit, MelVmad.flagSetBit,
    show (2 : Nat) ^ 2 = 4 from rfl]
  cases b <;> simp <;> omega

theorem flagBit_flagSetBit_1_0 (v : Nat) (b : Bool) :
    MelVmad.flagBit (MelVmad.flagSetBit v 1 b) 0 = MelVmad.flagBit v 0 := by
  simp only [MelVmad.flagBit, MelVmad.flagSetBit, pow_one, pow_zero,
    Nat.div_one]
  cases b <;> simp <;> omega

theorem flagBit_flagSetBit_2_0 (v : Nat) (b : Bool) :
    MelVmad.flagBit (MelVmad.flagSetBit v 2 b) 0 = MelVmad.flagBit v 0 := by
  simp only [MelVmad.flagBit, MelVmad.flagSetBit, pow_zero, Nat.div_one,
    show (2 : Nat) ^ 2 = 4 from rfl]
  cases b <;> simp <;> omega

theorem flagBit_flagSetBit_2_1 (v : Nat) (b : Bool) :
    MelVmad.flagBit (MelVmad.flagSetBit v 2 b) 1 = MelVmad.flagBit v 1 := by
  simp only [MelVmad.flagBit, MelVmad.flagSetBit, pow_one,
    show (2 : Nat) ^ 2 = 4 from rfl]
  cases b <;> simp <;> omega

/-- C10: encoding mutates the in-memory tree: every variable-count
container's stored count attribute is overwritten with the live list
length, every fixed-slot container's mapped flag bits are overwritten to
match child presence (and nothing else in the record changes), every
alias's stored version and object format are overwritten with 5 and 2,
and a stored value that disagreed before the dump (a property count of 7
with an empty list) ends up replaced. -/
theorem C10_dump_mutates_record :
    (∀ (s : MelVmad.Script) (res : List Nat × MelVmad.Script),
      MelVmad.Script.dump_data s = .ok res →
      res.2 = { s with property_count := s.properties.length }) ∧
    (∀ r : MelVmad.VmadHandlerINFOData,
      (MelVmad.VmadHandlerINFO.dump_data r).2 =
        { r with fragment_flags := (MelVmad.flagSetBit
          (MelVmad.flagSetBit r.fragment_flags 0 r.begin_frag.isSome) 1
          r.end_frag.isSome) } ∧
      MelVmad.flagBit (MelVmad.VmadHandlerINFO.dump_data r).2.fragment_flags
        0 = (if r.begin_frag.isSome then 1 else 0) ∧
      MelVmad.flagBit (MelVmad.VmadHandlerINFO.dump_data r).2.fragment_flags
        1 = (if r.end_frag.isSome then 1 else 0)) ∧
    (∀ r : MelVmad.VmadHandlerPACKData,
      MelVmad.flagBit (MelVmad.VmadHandlerPACK.dump_data r).2.fragment_flags
        0 = (if r.begin_frag.isSome then 1 else 0) ∧
      MelVmad.flagBit (MelVmad.VmadHandlerPACK.dump_data r).2.fragment_flags
        1 = (if r.end_frag.isSome then 1 else 0) ∧
      MelVmad.flagBit (MelVmad.VmadHandlerPACK.dump_data r).2.fragment_flags
        2 = (if r.change_frag.isSome then 1 else 0)) ∧
    (∀ r : MelVmad.VmadHandlerSCENData,
      MelVmad.flagBit (MelVmad.VmadHandlerSCEN.dump_data r).2.fragment_flags
        0 = (if r.begin_frag.isSome then 1 else 0) ∧
      MelVmad.flagBit (MelVmad.VmadHandlerSCEN.dump_data r).2.fragment_flags
        1 = (if r.end_frag.isSome then 1 else 0)) ∧
    (∀ r : MelVmad.VmadHandlerPERKData,
      (MelVmad.VmadHandlerPERK.dump_data r).2 =
        { r with fragment_count := r.fragments.length }) ∧
    (∀ (r : MelVmad.VmadHandlerQUSTData)
      (res : List Nat × MelVmad.VmadHandlerQUSTData),
      MelVmad.VmadHandlerQUST.dump_data r = .ok res →
      res.2.fragment_count = r.fragments.length ∧
      ∃ al2, res.2 = { r with fragment_count := r.fragments.length, aliases := al2 }) ∧
    (∀ (a : MelVmad.Alias) (res : List Nat × MelVmad.Alias),
      MelVmad.Alias.dump_data a = .ok res →
      res.2.alias_vmad_version = 5 ∧ res.2.alias_obj_format = 2 ∧
      res.2.script_count = a.scripts.length ∧
      ∃ sc2, res.2 = { a with alias_vmad_version := 5, alias_obj_format := 2, script_count := a.scripts.length, scripts := sc2 }) ∧
    MelVmad.Script.dump_data ⟨[], 0, 7, []⟩ =
      .ok ([0, 0, 0, 0, 0], ⟨[], 0, 0, []⟩) := by
  refine ⟨?_, ?_, ?_, ?_, fun r => rfl, ?_, ?_, by decide⟩
  · intro s res h
    cases hm : s.properties.mapM MelVmad.Property.dump_data with
    | error e =>
      simp only [MelVmad.Script.dump_data, hm, error_bind] at h
      exact Except.noConfusion h
    | ok pd =>
      simp only [MelVmad.Script.dump_data, hm, ok_bind,
        Except.ok.injEq] at h
      rw [← h]
  · intro r
    refine ⟨rfl, ?_, ?_⟩
    · show MelVmad.flagBit (MelVmad.flagSetBit
        (MelVmad.flagSetBit r.fragment_flags 0 r.begin_frag.isSome) 1
        r.end_frag.isSome) 0 = _
      rw [flagBit_flagSetBit_1_0, flagBit_flagSetBit_0]
    · show MelVmad.flagBit (MelVmad.flagSetBit
        (MelVmad.flagSetBit r.fragment_flags 0 r.begin_frag.isSome) 1
        r.end_frag.isSome) 1 = _
      rw [flagBit_flagSetBit_1]
  · intro r
    refine ⟨?_, ?_, ?_⟩
    · show MelVmad.flagBit (MelVmad.flagSetBit (MelVmad.flagSetBit
        (MelVmad.flagSetBit r.fragment_flags 0 r.begin_frag.isSome) 1
        r.end_frag.isSome) 2 r.change_frag.isSome) 0 = _
      rw [flagBit_flagSetBit_2_0, flagBit_flagSetBit_1_0,
        flagBit_flagSetBit_0]
    · show MelVmad.flagBit (MelVmad.flagSetBit (MelVmad.flagSetBit
        (MelVmad.flagSetBit r.fragment_flags 0 r.begin_frag.isSome) 1
        r.end_frag.isSome) 2 r.change_frag.isSome) 1 = _
      rw [flagBit_flagSetBit_2_1, flagBit_flagSetBit_1]
    · show MelVmad.flagBit (MelVmad.flagSetBit (MelVmad.flagSetBit
        (MelVmad.flagSetBit r.fragment_flags 0 r.begin_frag.isSome) 1
        r.end_frag.isSome) 2 r.change_frag.isSome) 2 = _
      rw [flagBit_flagSetBit_2]
  · intro r
    refine ⟨?_, ?_⟩
    · show MelVmad.flagBit (MelVmad.flagSetBit
        (MelVmad.flagSetBit r.fragment_flags 0 r.begin_frag.isSome) 1
        r.end_frag.isSome) 0 = _
      rw [flagBit_flagSetBit_1_0, flagBit_flagSetBit_0]
    · show MelVmad.flagBit (MelVmad.flagSetBit
        (MelVmad.flagSetBit r.fragment_flags 0 r.begin_frag.isSome) 1
        r.end_frag.isSome) 1 = _
      rw [flagBit_flagSetBit_1]
  · intro r res h
    cases hm : r.aliases.mapM MelVmad.Alias.dump_data with
    | error e =>
      simp only [MelVmad.VmadHandlerQUST.dump_data, hm, error_bind] at h
      exact Except.noConfusion h
    | ok ares =>
      simp only [MelVmad.VmadHandlerQUST.dump_data, hm, ok_bind,
        Except.ok.injEq] at h
      exact ⟨by rw [← h], List.map Prod.snd ares, by rw [← h]⟩
  · intro a res h
    cases hm : a.scripts.mapM MelVmad.Script.dump_data with
    | error e =>
      simp only [MelVmad.Alias.dump_data, hm, error_bind] at h
      exact Except.noConfusion h
    | ok sres =>
      simp only [MelVmad.Alias.dump_data, hm, ok_bind,
        Except.ok.injEq] at h
      exact ⟨by rw [← h], by rw [← h], by rw [← h],
        List.map Prod.snd sres, by rw [← h]⟩

/-- Witness for C10 at concrete components. -/
theorem C10_dump_mutates_record_witness :
    ((⟨[], 0, 0, []⟩ : MelVmad.Script) =
      ⟨[], 0, ([] : List MelVmad.Property).length, []⟩) ∧
    ((⟨0, 0, [], [], []⟩ : MelVmad.VmadHandlerQUSTData).fragment_count =
      ([] : List MelVmad.FragmentQUST).length) ∧
    ((⟨⟨0, 0⟩, 5, 2, 0, []⟩ : MelVmad.Alias).alias_vmad_version = 5) :=
  ⟨C10_dump_mutates_record.1 ⟨[], 0, 7, []⟩ ([0, 0, 0, 0, 0], ⟨[], 0, 0, []⟩)
      (by decide),
   (C10_dump_mutates_record.2.2.2.2.2.1 ⟨0, 5, [], [], []⟩
      ([0, 0, 0, 0, 0, 0, 0], ⟨0, 0, [], [], []⟩) (by decide)).1,
   (C10_dump_mutates_record.2.2.2.2.2.2.1 ⟨⟨0, 0⟩, 4, 1, 9, []⟩
      ([0, 0, 0, 0, 0, 0, 0, 0, 5, 0, 2, 0, 0, 0], ⟨⟨0, 0⟩, 5, 2, 0, []⟩)
      (by decide)).1⟩

/-! ## Resolver traversal (C9) -/

theorem sum_map_one {α : Type} (l : List α) :
    (l.map fun _ => (1 : Nat)).sum = l.length := by
  induction l with
  | nil => rfl
  | cons hd tl ih => simp [ih, Nat.add_comm]

theorem mapFidsList_eq {α : Type} (m : α → Nat → α × Nat) (u : α → α)
    (c : α → Nat) (l : List α)
    (h : ∀ a ∈ l, ∀ st, m a st = (u a, st + c a)) :
    ∀ st, mapFidsList m l st = (l.map u, st + (l.map c).sum) := by
  induction l with
  | nil => intro st; simp [mapFidsList]
  | cons hd tl ih =>
    intro st
    simp only [mapFidsList, h hd (by simp) st,
      ih (fun a ha st => h a (List.mem_cons_of_mem _ ha) st) (st + c hd),
      List.map_cons, List.sum_cons]
    exact Prod.ext rfl (by dsimp only; omega)

theorem shapeOk_type1 (p : MelVmad.Property) (h1 : p.prop_type = 1)
    (hp : p.shapeOk = true) : ∃ o, p.prop_data = .obj o := by
  simp only [MelVmad.Property.shapeOk, if_pos h1] at hp
  cases hd : p.prop_data <;> rw [hd] at hp <;> simp_all

theorem shapeOk_type11 (p : MelVmad.Property) (h1 : p.prop_type ≠ 1)
    (h11 : p.prop_type = 11) (hp : p.shapeOk = true) :
    ∃ rs, p.prop_data = .objArray rs := by
  simp only [MelVmad.Property.shapeOk, if_neg h1, if_pos h11] at hp
  cases hd : p.prop_data <;> rw [hd] at hp <;> simp_all

theorem objRef_map_count (g : Nat → Nat) (save : Bool) (r : ObjectRef)
    (st : Nat) :
    ObjectRef.map_fids (fun fid n => (g fid, n + 1)) save r st =
      ((if save then MelVmad.ObjectRef.mapRefsSpec g r else r), st + 1) := by
  cases save <;> simp [ObjectRef.map_fids, MelVmad.ObjectRef.mapRefsSpec]

theorem property_map_count (g : Nat → Nat) (save : Bool)
    (p : MelVmad.Property) (hp : p.shapeOk = true) (st : Nat) :
    MelVmad.Property.map_fids (fun fid n => (g fid, n + 1)) save p st =
      ((if save then MelVmad.Property.mapRefsSpec g p else p),
        st + p.refCount) := by
  by_cases h1 : p.prop_type = 1
  · obtain ⟨o, hd⟩ := shapeOk_type1 p h1 hp
    simp only [MelVmad.Property.map_fids, MelVmad.Property.mapRefsSpec,
      MelVmad.Property.refCount, if_pos h1, hd, objRef_map_count]
    cases save <;> simp [← hd]
  · by_cases h11 : p.prop_type = 11
    · obtain ⟨rs, hd⟩ := shapeOk_type11 p h1 h11 hp
      have hl := mapFidsList_eq
        (ObjectRef.map_fids (fun fid n => (g fid, n + 1)) save)
        (fun r => if save then MelVmad.ObjectRef.mapRefsSpec g r else r)
        (fun _ => 1) rs (fun a _ st => objRef_map_count g save a st) st
      simp only [MelVmad.Property.map_fids, MelVmad.Property.mapRefsSpec,
        MelVmad.Property.refCount, if_neg h1, if_pos h11, hd, hl,
        sum_map_one]
      cases save <;> simp [← hd]
    · simp only [MelVmad.Property.map_fids, MelVmad.Property.mapRefsSpec,
        MelVmad.Property.refCount, if_neg h1, if_neg h11, ite_self]
      simp

theorem script_map_count (g : Nat → Nat) (save : Bool) (s : MelVmad.Script)
    (hs : s.shapeOk = true) (st : Nat) :
    MelVmad.Script.map_fids (fun fid n => (g fid, n + 1)) save s st =
      ((if save then MelVmad.Script.mapRefsSpec g s else s),
        st + s.refCount) := by
  simp only [MelVmad.Script.shapeOk, List.all_eq_true] at hs
  have hl := mapFidsList_eq
    (MelVmad.Property.map_fids (fun fid n => (g fid, n + 1)) save)
    (fun p => if save then MelVmad.Property.mapRefsSpec g p else p)
    MelVmad.Property.refCount s.properties
    (fun a ha st => property_map_count g save a (by simpa using hs a ha) st)
    st
  simp only [MelVmad.Script.map_fids, MelVmad.Script.mapRefsSpec,
    MelVmad.Script.refCount, hl]
  cases save <;> simp

theorem alias_map_count (g : Nat → Nat) (save : Bool) (a : MelVmad.Alias)
    (ha : a.shapeOk = true) (st : Nat) :
    MelVmad.Alias.map_fids (fun fid n => (g fid, n + 1)) save a st =
      ((if save then MelVmad.Alias.mapRefsSpec g a else a),
        st + a.refCount) := by
  simp only [MelVmad.Alias.shapeOk, List.all_eq_true] at ha
  have hl := mapFidsList_eq
    (MelVmad.Script.map_fids (fun fid n => (g fid, n + 1)) save)
    (fun s => if save then MelVmad.Script.mapRefsSpec g s else s)
    MelVmad.Script.refCount a.scripts
    (fun x hx st => script_map_count g save x (by simpa using ha x hx) st)
  simp only [MelVmad.Alias.map_fids, MelVmad.Alias.mapRefsSpec,
    MelVmad.Alias.refCount, objRef_map_count, hl]
  cases save <;> refine Prod.ext ?_ (by dsimp only; omega) <;> simp

theorem special_map_count (g : Nat → Nat) (save : Bool) (rt : RecType)
    (sd : MelVmad.SpecialData)
    (hq : ∀ d, sd = .qust d → d.aliases.all MelVmad.Alias.shapeOk = true)
    (st : Nat) :
    MelVmad.specialHandlerMapFids rt (fun fid n => (g fid, n + 1)) save sd
      st =
      ((if save then MelVmad.specialMapRefsSpec rt g sd else sd),
        st + MelVmad.specialRefCount rt sd) := by
  cases rt <;> cases sd <;>
    simp only [MelVmad.specialHandlerMapFids, MelVmad.specialMapRefsSpec,
      MelVmad.specialRefCount, ite_self, Nat.add_zero]
  case QUST.qust d =>
    have ha := hq d rfl
    simp only [List.all_eq_true] at ha
    have hl := mapFidsList_eq
      (MelVmad.Alias.map_fids (fun fid n => (g fid, n + 1)) save)
      (fun a => if save then MelVmad.Alias.mapRefsSpec g a else a)
      MelVmad.Alias.refCount d.aliases
      (fun x hx st => alias_map_count g save x (by simpa using ha x hx) st)
      st
    simp only [MelVmad.VmadHandlerQUST.map_fids, hl]
    cases save <;> simp

/-- C9: instrumenting the caller-supplied mapping function with a call
counter, `mapFids` over a shape-coherent tree invokes the function
exactly once per object-reference-bearing leaf (type-1 properties, each
element of a type-11 object-array payload, and each alias's embedded
reference, recursing through alias scripts); in save mode the resulting
tree is exactly the spec-side pure map that rewrites only those
reference leaves, and in query mode the tree is returned unchanged. -/
theorem C9_resolver_traversal (rt : RecType) (vmad : MelVmad.VmadData)
    (g : Nat → Nat) (save : Bool) (st0 : Nat)
    (h : MelVmad.VmadData.shapeOk rt vmad = true) :
    MelVmad.mapFids rt (fun fid n => (g fid, n + 1)) save vmad st0 =
      ((if save then MelVmad.VmadData.mapRefsSpec rt g vmad else vmad),
        st0 + MelVmad.VmadData.refCount rt vmad) := by
  simp only [MelVmad.VmadData.shapeOk, Bool.and_eq_true,
    List.all_eq_true] at h
  have hl := mapFidsList_eq
    (MelVmad.Script.map_fids (fun fid n => (g fid, n + 1)) save)
    (fun s => if save then MelVmad.Script.mapRefsSpec g s else s)
    MelVmad.Script.refCount vmad.scripts
    (fun x hx st => script_map_count g save x (by simpa using h.1 x hx) st)
    st0
  cases hsd : vmad.special_data with
  | none =>
    cases hh : rt.hasHandler <;> cases save <;>
      simp only [MelVmad.mapFids, MelVmad.VmadData.mapRefsSpec,
        MelVmad.VmadData.refCount, hsd, hh, hl] <;>
      refine Prod.ext ?_ (by dsimp only; omega) <;>
      dsimp only <;> simp <;> rw [← hsd]
  | some sd =>
    rw [hsd] at h
    cases hh : rt.hasHandler with
    | false =>
      cases save <;>
        simp only [MelVmad.mapFids, MelVmad.VmadData.mapRefsSpec,
          MelVmad.VmadData.refCount, hsd, hh, hl] <;>
        refine Prod.ext ?_ (by dsimp only; omega) <;>
        dsimp only <;> simp <;> rw [← hsd]
    | true =>
      have hq : ∀ d, sd = .qust d →
          d.aliases.all MelVmad.Alias.shapeOk = true := by
        intro d hd
        subst hd
        have h2 : ((!rt.hasHandler ||
            MelVmad.SpecialData.matchesRt rt (.qust d)) &&
            d.aliases.all MelVmad.Alias.shapeOk) = true := h.2
        simp only [Bool.and_eq_true] at h2
        exact h2.2
      have hsp := special_map_count g save rt sd hq
        (st0 + (vmad.scripts.map MelVmad.Script.refCount).sum)
      cases save <;>
        simp only [MelVmad.mapFids, MelVmad.VmadData.mapRefsSpec,
          MelVmad.VmadData.refCount, hsd, hh, hl, hsp] <;>
        refine Prod.ext ?_ (by dsimp only; omega) <;>
        dsimp only <;> simp <;> try rw [← hsd]

/-- Witness for C9 on a concrete QUST tree: one script with one type-1
property and one type-3 (reference-free) property, and one alias whose
script holds another type-1 property, so exactly three reference leaves
are visited. -/
theorem C9_resolver_traversal_witness :
    MelVmad.mapFids .QUST (fun fid n => (fid + 100, n + 1)) true
      ⟨[⟨[], 0, 2, [⟨[], 1, 1, .obj ⟨0, 7⟩⟩, ⟨[], 3, 1, .i32 4⟩]⟩],
        some (.qust ⟨0, 0, [], [],
          [⟨⟨1, 8⟩, 5, 2, 1, [⟨[], 0, 1, [⟨[], 1, 1, .obj ⟨2, 9⟩⟩]⟩]⟩]⟩)⟩
      0 =
      (MelVmad.VmadData.mapRefsSpec .QUST (fun fid => fid + 100)
          ⟨[⟨[], 0, 2, [⟨[], 1, 1, .obj ⟨0, 7⟩⟩, ⟨[], 3, 1, .i32 4⟩]⟩],
            some (.qust ⟨0, 0, [], [],
              [⟨⟨1, 8⟩, 5, 2, 1, [⟨[], 0, 1, [⟨[], 1, 1, .obj ⟨2, 9⟩⟩]⟩]⟩]⟩)⟩,
        0 + MelVmad.VmadData.refCount .QUST
          ⟨[⟨[], 0, 2, [⟨[], 1, 1, .obj ⟨0, 7⟩⟩, ⟨[], 3, 1, .i32 4⟩]⟩],
            some (.qust ⟨0, 0, [], [],
              [⟨⟨1, 8⟩, 5, 2, 1, [⟨[], 0, 1, [⟨[], 1, 1, .obj ⟨2, 9⟩⟩]⟩]⟩]⟩)⟩) :=
  C9_resolver_traversal .QUST
    ⟨[⟨[], 0, 2, [⟨[], 1, 1, .obj ⟨0, 7⟩⟩, ⟨[], 3, 1, .i32 4⟩]⟩],
      some (.qust ⟨0, 0, [], [],
        [⟨⟨1, 8⟩, 5, 2, 1, [⟨[], 0, 1, [⟨[], 1, 1, .obj ⟨2, 9⟩⟩]⟩]⟩]⟩)⟩
    (fun fid => fid + 100) true 0 (by decide)

/-! ## Fixed-slot special data (C7) -/

/-- C7: decoding the encoding of a SCEN special-data block that carries a
phase fragment fails: `FragmentSCENPhase.load_data` stores the raw flags
byte under `fragment_flags` but then reads the never-assigned attribute
`fragment_phase_flags`, so the decode raises instead of returning the
children, contradicting the fixed-slot round-trip property. -/
theorem C7_scen_phase_fragment_decode_bug :
    MelVmad.VmadHandlerSCEN.load_data 5 2
      ⟨(MelVmad.VmadHandlerSCEN.dump_data
        ⟨0, 0, [], none, none, [⟨0, 0, 0, 0, 0, [], []⟩]⟩).1, 0⟩ =
      .error (.attributeError "fragment_phase_flags") := by decide

/-- Supporting evidence for C7: for INFO and PACK, and for SCEN with an
empty phase list, every subset of children round-trips: encoding sets
the flag bits from presence, emits the present children in order, and
decoding the encoded bytes recovers exactly the same subset (the only
record change being the re-derived flag byte). -/
theorem C7_fixed_slot_subset_round_trips :
    (MelVmad.VmadHandlerINFO.load_data 5 2
      ⟨(MelVmad.VmadHandlerINFO.dump_data ⟨3, 0, [70], none, none⟩).1, 0⟩ =
      .ok (⟨3, 0, [70], none, none⟩,
        ⟨(MelVmad.VmadHandlerINFO.dump_data ⟨3, 0, [70], none, none⟩).1,
          (MelVmad.VmadHandlerINFO.dump_data
            ⟨3, 0, [70], none, none⟩).1.length⟩)) ∧
    (MelVmad.VmadHandlerINFO.load_data 5 2
      ⟨(MelVmad.VmadHandlerINFO.dump_data
        ⟨3, 0, [70], some ⟨1, [65], [66]⟩, none⟩).1, 0⟩ =
      .ok (⟨3, 1, [70], some ⟨1, [65], [66]⟩, none⟩,
        ⟨(MelVmad.VmadHandlerINFO.dump_data
            ⟨3, 0, [70], some ⟨1, [65], [66]⟩, none⟩).1,
          (MelVmad.VmadHandlerINFO.dump_data
            ⟨3, 0, [70], some ⟨1, [65], [66]⟩, none⟩).1.length⟩)) ∧
    (MelVmad.VmadHandlerINFO.load_data 5 2
      ⟨(MelVmad.VmadHandlerINFO.dump_data
        ⟨3, 0, [70], none, some ⟨2, [67], [68]⟩⟩).1, 0⟩ =
      .ok (⟨3, 2, [70], none, some ⟨2, [67], [68]⟩⟩,
        ⟨(MelVmad.VmadHandlerINFO.dump_data
            ⟨3, 0, [70], none, some ⟨2, [67], [68]⟩⟩).1,
          (MelVmad.VmadHandlerINFO.dump_data
            ⟨3, 0, [70], none, some ⟨2, [67], [68]⟩⟩).1.length⟩)) ∧
    (MelVmad.VmadHandlerINFO.load_data 5 2
      ⟨(MelVmad.VmadHandlerINFO.dump_data
        ⟨3, 0, [70], some ⟨1, [65], [66]⟩, some ⟨2, [67], [68]⟩⟩).1, 0⟩ =
      .ok (⟨3, 3, [70], some ⟨1, [65], [66]⟩, some ⟨2, [67], [68]⟩⟩,
        ⟨(MelVmad.VmadHandlerINFO.dump_data
            ⟨3, 0, [70], some ⟨1, [65], [66]⟩, some ⟨2, [67], [68]⟩⟩).1,
          (MelVmad.VmadHandlerINFO.dump_data
            ⟨3, 0, [70], some ⟨1, [65], [66]⟩,
              some ⟨2, [67], [68]⟩⟩).1.length⟩)) ∧
    (MelVmad.VmadHandlerPACK.load_data 5 2
      ⟨(MelVmad.VmadHandlerPACK.dump_data
        ⟨3, 0, [70], none, none, some ⟨5, [69], [70]⟩⟩).1, 0⟩ =
      .ok (⟨3, 4, [70], none, none, some ⟨5, [69], [70]⟩⟩,
        ⟨(MelVmad.VmadHandlerPACK.dump_data
            ⟨3, 0, [70], none, none, some ⟨5, [69], [70]⟩⟩).1,
          (MelVmad.VmadHandlerPACK.dump_data
            ⟨3, 0, [70], none, none, some ⟨5, [69], [70]⟩⟩).1.length⟩)) ∧
    (MelVmad.VmadHandlerPACK.load_data 5 2
      ⟨(MelVmad.VmadHandlerPACK.dump_data
        ⟨3, 0, [70], some ⟨1, [65], [66]⟩, some ⟨2, [67], [68]⟩,
          some ⟨5, [69], [70]⟩⟩).1, 0⟩ =
      .ok (⟨3, 7, [70], some ⟨1, [65], [66]⟩, some ⟨2, [67], [68]⟩,
          some ⟨5, [69], [70]⟩⟩,
        ⟨(MelVmad.VmadHandlerPACK.dump_data
            ⟨3, 0, [70], some ⟨1, [65], [66]⟩, some ⟨2, [67], [68]⟩,
              some ⟨5, [69], [70]⟩⟩).1,
          (MelVmad.VmadHandlerPACK.dump_data
            ⟨3, 0, [70], some ⟨1, [65], [66]⟩, some ⟨2, [67], [68]⟩,
              some ⟨5, [69], [70]⟩⟩).1.length⟩)) ∧
    (MelVmad.VmadHandlerSCEN.load_data 5 2
      ⟨(MelVmad.VmadHandlerSCEN.dump_data
        ⟨3, 0, [70], some ⟨1, [65], [66]⟩, none, []⟩).1, 0⟩ =
      .ok (⟨3, 1, [70], some ⟨1, [65], [66]⟩, none, []⟩,
        ⟨(MelVmad.VmadHandlerSCEN.dump_data
            ⟨3, 0, [70], some ⟨1, [65], [66]⟩, none, []⟩).1,
          (MelVmad.VmadHandlerSCEN.dump_data
            ⟨3, 0, [70], some ⟨1, [65], [66]⟩, none, []⟩).1.length⟩)) := by
  refine ⟨by decide, by decide, by decide, by decide, by decide, by decide,
    by decide⟩
